import Mathlib

/-!
# Verification of the savr-scan receipt-parsing core

Shallow embedding of the receipt-parsing pipeline of the savr-scan
repository: the learned-pattern override system and AI-result validation
(`src/app/lib/aiReceiptParser.ts`), the layered non-food detector
(`EnhancedNonFoodDetector`), the garbled-OCR detector (`isOCRTextGarbled`),
the product-name cleaner (`ProductNameCleaner`), the degraded-text recovery
generator (`generateUniversalGroceryReceipt`), and the rule-based product
name enhancer (`src/app/lib/productNameEnhancer.ts`).

Strings are modelled as Lean `String`/`List Char`; JavaScript numbers as
`ℚ`; JavaScript regular expressions as terms of a small regex language
`RE` evaluated by a fuelled backtracking matcher that mirrors JavaScript
semantics (leftmost match, left-biased alternation, greedy quantifiers,
`\b` word boundaries, `^`/`$` anchors, `g`-flag match counting).
-/

namespace SavrScan

/-! ## Character classes and basic string helpers (JS semantics, ASCII data) -/

/-- JS `\w`: ASCII letters, digits and underscore. -/
def isWordChar (c : Char) : Bool :=
  (('a' ≤ c && c ≤ 'z') || ('A' ≤ c && c ≤ 'Z') || ('0' ≤ c && c ≤ '9') || c = '_')

/-- JS `\s` on the character repertoire used by the sources. -/
def isSpaceChar (c : Char) : Bool :=
  c = ' ' || c = '\t' || c = '\n' || c = '\r' || c = '\x0b' || c = '\x0c'

def isDigitChar (c : Char) : Bool := '0' ≤ c && c ≤ '9'

def isUpperChar (c : Char) : Bool := 'A' ≤ c && c ≤ 'Z'

def isLowerChar (c : Char) : Bool := 'a' ≤ c && c ≤ 'z'

def isLetterChar (c : Char) : Bool := isUpperChar c || isLowerChar c

/-- ASCII lower-casing of one character (JS `toLowerCase` on ASCII data). -/
def lowerChar (c : Char) : Char :=
  if isUpperChar c then Char.ofNat (c.toNat + 32) else c

/-- ASCII upper-casing of one character (JS `toUpperCase` on ASCII data). -/
def upperChar (c : Char) : Char :=
  if isLowerChar c then Char.ofNat (c.toNat - 32) else c

def lowerStr (s : List Char) : List Char := s.map lowerChar

def upperStr (s : List Char) : List Char := s.map upperChar

/-- Case-insensitive character comparison. -/
def charEqCI (a b : Char) : Bool := lowerChar a == lowerChar b

/-- JS `String.prototype.trim`. -/
def jsTrim (s : List Char) : List Char :=
  ((s.dropWhile (fun c => isSpaceChar c)).reverse.dropWhile (fun c => isSpaceChar c)).reverse

/-- Helper for `collapseSpaces`: `inRun` records whether the previous
character was whitespace already emitted as the single `' '`. -/
def collapseSpacesAux : Bool → List Char → List Char
  | _, [] => []
  | inRun, c :: rest =>
    if isSpaceChar c then
      if inRun then collapseSpacesAux true rest
      else ' ' :: collapseSpacesAux true rest
    else c :: collapseSpacesAux false rest

/-- JS `.replace(/\s+/g, ' ')`: collapse whitespace runs to single spaces. -/
def collapseSpaces (s : List Char) : List Char := collapseSpacesAux false s

/-- Does `needle` occur as a contiguous substring of `hay`? (JS `includes`). -/
def containsSub (hay needle : List Char) : Bool :=
  match hay with
  | [] => needle.isEmpty
  | _ :: rest => needle.isPrefixOf hay || containsSub rest needle

/-- Split on a single character, keeping empty fields (JS `split(c)`). -/
def splitOn (sep : Char) : List Char → List (List Char)
  | [] => [[]]
  | c :: rest =>
    let r := splitOn sep rest
    if c = sep then [] :: r
    else
      match r with
      | [] => [[c]]
      | w :: ws => (c :: w) :: ws

/-- Join with a single-character separator (JS `join(c)`). -/
def joinWith (sep : Char) : List (List Char) → List Char
  | [] => []
  | [w] => w
  | w :: ws => w ++ sep :: joinWith sep ws

/-! ## A small regex language with JS matching semantics -/

/-- Regex abstract syntax: enough for every pattern in the sources.
`wb` is `\b`, `bos` is `^` (no multiline flag is used), `eos` is `$`. -/
inductive RE where
  | eps
  | char (p : Char → Bool)
  | seq (a b : RE)
  | alt (a b : RE)
  | star (a : RE)
  | wb
  | bos
  | eos

namespace RE

def cat (l : List RE) : RE := l.foldr seq eps

/-- Case-sensitive literal. -/
def lit (s : String) : RE := cat (s.toList.map (fun c => char (fun d => d == c)))

/-- Case-insensitive literal (the `i` flag). -/
def liti (s : String) : RE := cat (s.toList.map (fun c => char (fun d => charEqCI d c)))

def opt (r : RE) : RE := alt r eps

def plus (r : RE) : RE := seq r (star r)

/-- `r{n}` -/
def rep (r : RE) (n : Nat) : RE := cat (List.replicate n r)

/-- `r{n,}` -/
def atLeast (r : RE) (n : Nat) : RE := seq (rep r n) (star r)

/-- `r{lo,hi}` -/
def between (r : RE) (lo hi : Nat) : RE :=
  seq (rep r lo) (cat (List.replicate (hi - lo) (opt r)))

/-- Left-biased alternation over a list (JS `(a|b|c)`). -/
def altL : List RE → RE
  | [] => eps
  | [r] => r
  | r :: rs => alt r (altL rs)

end RE

/-- JS `\b` at the position between `prev` and the head of `s`. -/
def atWordBoundary (prev : Option Char) (s : List Char) : Bool :=
  let pw := match prev with | none => false | some c => isWordChar c
  let nw := match s.head? with | none => false | some c => isWordChar c
  pw != nw

/-- Fuelled backtracking matcher: match `r` against a prefix of `s`
(`prev` is the character just before `s` in the full subject).  The
continuation receives the updated `prev` and the rest of the subject; the
first success in JS backtracking order (left-biased `alt`, greedy `star`)
wins.  Returns the remaining subject after the overall match. -/
def matchM (fuel : Nat) (r : RE) (prev : Option Char) (s : List Char)
    (k : Option Char → List Char → Option (List Char)) : Option (List Char) :=
  match fuel with
  | 0 => none
  | fuel + 1 =>
    match r with
    | .eps => k prev s
    | .char p =>
      match s with
      | [] => none
      | c :: rest => if p c then k (some c) rest else none
    | .seq a b => matchM fuel a prev s (fun p2 s2 => matchM fuel b p2 s2 k)
    | .alt a b =>
      match matchM fuel a prev s k with
      | some res => some res
      | none => matchM fuel b prev s k
    | .star a =>
      match matchM fuel a prev s
          (fun p2 s2 =>
            if s2.length < s.length then matchM fuel (.star a) p2 s2 k else none) with
      | some res => some res
      | none => k prev s
    | .wb => if atWordBoundary prev s then k prev s else none
    | .bos => match prev with | none => k prev s | some _ => none
    | .eos => match s with | [] => k prev s | _ :: _ => none

def RE.size : RE → Nat
  | .eps => 1
  | .char _ => 1
  | .seq a b => a.size + b.size + 1
  | .alt a b => a.size + b.size + 1
  | .star a => a.size + 1
  | .wb => 1
  | .bos => 1
  | .eos => 1

/-- Fuel that is ample for every pattern/subject pair in this development. -/
def fuelFor (r : RE) (s : List Char) : Nat := (r.size + 2) * (s.length + 2) * 4

/-- Try to match `r` starting exactly at the split point `prev`/`s`;
returns the rest of the subject after the match. -/
def matchHere (r : RE) (prev : Option Char) (s : List Char) (fuel : Nat) :
    Option (List Char) :=
  matchM fuel r prev s (fun _ rest => some rest)

/-- First match of `r` in `s` at a start position `≥ from`, scanning left to
right (JS `RegExpExec` search).  Returns `(start, rest-after-match)`. -/
def searchFrom (r : RE) (fuel : Nat) :
    (prev : Option Char) → (s : List Char) → (idx : Nat) → (start : Nat) →
    Option (Nat × List Char)
  | prev, s, idx, start =>
    if start ≤ idx then
      match matchHere r prev s fuel with
      | some rest => some (idx, rest)
      | none =>
        match s with
        | [] => none
        | c :: rest => searchFrom r fuel (some c) rest (idx + 1) start
    else
      match s with
      | [] => none
      | c :: rest => searchFrom r fuel (some c) rest (idx + 1) start

/-- JS `regex.test(s)` for a regex without sticky state. -/
def reTest (r : RE) (s : List Char) : Bool :=
  (searchFrom r (fuelFor r s) none s 0 0).isSome

/-- Count the matches of `r` in `s` (JS `s.match(new RegExp(r,'g')).length`,
`0` when there is no match): repeatedly take the leftmost match, resuming
after its end (advancing one position past an empty match). -/
def countMatchesAux (r : RE) (fuel : Nat) (s : List Char) : Nat → Nat → Nat
  | pos, steps =>
    match steps with
    | 0 => 0
    | steps + 1 =>
      match searchFrom r fuel none s 0 pos with
      | none => 0
      | some (st, rest) =>
        let len := s.length - rest.length
        let next := if len = st then st + 1 else len
        1 + countMatchesAux r fuel s next steps
def countMatches (r : RE) (s : List Char) : Nat :=
  countMatchesAux r (fuelFor r s) s 0 (s.length + 2)

/-! ## JS object / string utilities shared by the embeddings -/

/-- JS `toUpperCase` on ASCII data, as a `String` function. -/
def jsToUpper (s : String) : String := ⟨upperStr s.toList⟩

/-- JS `toLowerCase` on ASCII data, as a `String` function. -/
def jsToLower (s : String) : String := ⟨lowerStr s.toList⟩

/-- JS `trim` as a `String` function. -/
def jsTrimS (s : String) : String := ⟨jsTrim s.toList⟩

/-- JS object property update (`obj[k] = v`): replace the binding if the key
exists, otherwise append it.  Reads are `List.lookup`. -/
def objSet (m : List (String × α)) (k : String) (v : α) : List (String × α) :=
  match m with
  | [] => [(k, v)]
  | (k', v') :: rest => if k' == k then (k, v) :: rest else (k', v') :: objSet rest k v

/-- JS `x || d` for an optional string (`undefined` and `''` are falsy). -/
def jsOrStr (v : Option String) (d : String) : String :=
  match v with
  | some s => if s == "" then d else s
  | none => d

/-- JS `Number(x) || d` for an optional number (`undefined`→`NaN` and `0`
are falsy). -/
def jsOrQ (v : Option ℚ) (d : ℚ) : ℚ :=
  match v with
  | some q => if q == 0 then d else q
  | none => d

/-! ## ReceiptLearningSystem (`src/app/lib/aiReceiptParser.ts` 581–727)

The persisted pattern table `learned_patterns` is a JS object
`store(uppercased) → (originalText → correctedValue)`; we model it as a
nested association list with JS object semantics. -/

/-- The per-store pattern map. -/
abbrev StorePatterns := List (String × String)

/-- The full pattern table (`getAllPatterns()`). -/
abbrev AllPatterns := List (String × StorePatterns)

/-- The fields of a `LearningData` entry consumed by `updatePatterns`. -/
structure LearningEntry where
  storeName : String
  originalName : String
  newEnhancedName : String
  deriving DecidableEq, Repr

/-- Input item shape of `applyLearnedEnhancements`
(`Array<{ name: string; enhancedName?: string }>`). -/
structure LearnItem where
  name : String
  enhancedName : Option String
  deriving DecidableEq, Repr

/-- Output item shape of `applyLearnedEnhancements`; `shouldHide` is only
present (`some true`) in the hide branch, mirroring the JS object shapes. -/
structure LearnedOut where
  name : String
  enhancedName : String
  wasLearned : Bool
  shouldHide : Option Bool
  deriving DecidableEq, Repr

/-- `ReceiptLearningSystem.getLearnedPatterns`. -/
def getLearnedPatterns (all : AllPatterns) (storeName : String) : StorePatterns :=
  (List.lookup (jsToUpper storeName) all).getD []

/-- `ReceiptLearningSystem.updatePatterns`:
`patterns[storeKey][entry.originalName] = entry.newEnhancedName`. -/
def updatePatterns (all : AllPatterns) (e : LearningEntry) : AllPatterns :=
  let storeKey := jsToUpper e.storeName
  let cur := (List.lookup storeKey all).getD []
  objSet all storeKey (objSet cur e.originalName e.newEnhancedName)

/-- The body of the `items.map` in `applyLearnedEnhancements`:
`learned === '__HIDDEN__'` forces the hide shape, any other truthy
(non-empty) value overrides `enhancedName`, otherwise the item passes
through with `enhancedName || name`. -/
def applyLearnedOne (patterns : StorePatterns) (item : LearnItem) : LearnedOut :=
  match List.lookup item.name patterns with
  | some learned =>
    if learned == "__HIDDEN__" then
      { name := item.name, enhancedName := jsOrStr item.enhancedName item.name,
        wasLearned := true, shouldHide := some true }
    else if learned ≠ "" then
      { name := item.name, enhancedName := learned, wasLearned := true, shouldHide := none }
    else
      { name := item.name, enhancedName := jsOrStr item.enhancedName item.name,
        wasLearned := false, shouldHide := none }
  | none =>
      { name := item.name, enhancedName := jsOrStr item.enhancedName item.name,
        wasLearned := false, shouldHide := none }

/-- `ReceiptLearningSystem.applyLearnedEnhancements`. -/
def applyLearnedEnhancements (all : AllPatterns) (items : List LearnItem)
    (storeName : String) : List LearnedOut :=
  items.map (applyLearnedOne (getLearnedPatterns all storeName))

/-! ## `validateAIResult` (`src/app/lib/aiReceiptParser.ts` 176–219) -/

/-- The fixed category enumeration (`PRODUCT_CATEGORIES` of
`aiReceiptParser.ts`). -/
def PRODUCT_CATEGORIES : List String :=
  ["Groceries", "Dairy & Eggs", "Meat & Seafood", "Fresh Produce", "Bakery",
   "Frozen Foods", "Pantry & Dry Goods", "Snacks & Candy", "Beverages",
   "Health & Beauty", "Personal Care", "Household & Cleaning", "Baby & Kids",
   "Pet Supplies", "Pharmacy", "Electronics", "Clothing", "Home & Garden",
   "Automotive", "Office Supplies", "Other"]

/-- An item of the untrusted AI response; absent/non-string/non-numeric
fields are `none`. -/
structure RawItem where
  name : Option String
  enhancedName : Option String
  category : Option String
  price : Option ℚ
  confidence : Option ℚ
  deriving DecidableEq, Repr

/-- The untrusted AI response shape consumed by `validateAIResult`
(`total` is `none` when `typeof aiResult.total !== 'number'`). -/
structure AIRaw where
  storeName : Option String
  items : Option (List RawItem)
  total : Option ℚ
  mdStoreFormat : Option String
  deriving DecidableEq, Repr

/-- A validated item of `AIParsingResult`. -/
structure ValidItem where
  name : String
  enhancedName : String
  category : String
  price : ℚ
  confidence : ℚ
  deriving DecidableEq, Repr

/-- The validated result (metadata reduced to the fields the validator
writes). -/
structure AIResult where
  storeName : String
  items : List ValidItem
  total : ℚ
  storeFormat : String
  itemCount : Nat
  deriving DecidableEq, Repr

/-- The filter of `validateAIResult`: `item.name && item.enhancedName &&
typeof item.price === 'number' && item.price > 0`. -/
def rawItemKept (it : RawItem) : Bool :=
  (match it.name with | some s => s ≠ "" | none => false) &&
  (match it.enhancedName with | some s => s ≠ "" | none => false) &&
  (match it.price with | some p => decide (0 < p) | none => false)

/-- The map of `validateAIResult` over kept items. -/
def rawItemClean (it : RawItem) : ValidItem :=
  { name := jsTrimS (it.name.getD "")
    enhancedName := jsTrimS (it.enhancedName.getD "")
    category :=
      if PRODUCT_CATEGORIES.contains (it.category.getD "") then it.category.getD ""
      else "Other"
    price := it.price.getD 0
    confidence := max 0 (min 1 (jsOrQ it.confidence (7/10))) }

/-- The kept, cleaned item list of `validateAIResult`. -/
def validItems (ai : AIRaw) : List ValidItem :=
  ((ai.items.getD []).filter rawItemKept).map rawItemClean

/-- `itemsSum`: the sum of the kept items' prices. -/
def validSum (ai : AIRaw) : ℚ := ((validItems ai).map (·.price)).sum

/-- `validateAIResult` (logging dropped; the `originalText` argument is
unused by the source function's logic). -/
def validateAIResult (ai : AIRaw) : AIResult :=
  let total0 : ℚ := ai.total.getD 0
  let items := validItems ai
  let itemsSum := validSum ai
  { storeName := jsOrStr ai.storeName "Unknown Store"
    items := items
    total := if total0 == 0 || |total0 - itemsSum| > itemsSum * (1/2) then itemsSum else total0
    storeFormat := jsOrStr ai.mdStoreFormat "Unknown"
    itemCount := items.length }

/-! ## EnhancedNonFoodDetector (`src/unnamed/part_007`)

`detectNonFood` evaluated over `ℚ` confidences.  The free-text `reason`
field (pure diagnostics) is not modelled; `category` is modelled as the
string actually stored at runtime (the dictionary keys `tax`, `payment`,
`fees`, `coupons`, `service`, `personalCare`, …, `discount`, `other`). -/

/-- `\d` -/
def reD : RE := .char isDigitChar
/-- `\s*` -/
def reS0 : RE := .star (.char isSpaceChar)
/-- `\s+` -/
def reS1 : RE := .plus (.char isSpaceChar)
/-- `\d+\.\d{2}` -/
def rePrice : RE := .cat [.plus reD, .lit ".", .rep reD 2]

/-- `detectionRules.definiteNonFood.tax` -/
def taxPatterns : List RE :=
  [ .cat [.wb, .altL [.seq (.liti "sale") (.opt (.liti "s")), .liti "state", .liti "city",
          .liti "local", .liti "county"], reS0, .liti "tax", .wb],
    .cat [.wb, .liti "tax", reS0, .alt rePrice (.cat [.plus reD, .lit "%"])],
    .cat [.wb, .altL [.liti "hst", .liti "gst", .liti "pst", .liti "vat"], .wb],
    .cat [.wb, .liti "total", reS0, .liti "tax"],
    .cat [.liti "tax", reS0, .liti "total"] ]

/-- `detectionRules.definiteNonFood.payment` -/
def paymentPatterns : List RE :=
  [ .cat [.wb, .altL [.liti "amex", .liti "visa", .liti "mastercard", .liti "discover",
          .liti "card"], reS0,
          .altL [.liti "tend", .liti "tender", .liti "payment", .liti "transaction"]],
    .cat [.wb, .altL [.liti "cash", .liti "credit", .liti "debit"], reS0,
          .altL [.liti "tend", .liti "tender", .liti "payment"]],
    .cat [.wb, .altL [.liti "payment", .liti "tender"], reS0,
          .altL [.liti "amount", .liti "method"]],
    .cat [.wb, .liti "change", reS0, .altL [.liti "due", .liti "given"]],
    .cat [.wb, .altL [.liti "subtotal", .liti "total", .liti "balance"], reS0, rePrice, .eos],
    .cat [.wb, .altL [.liti "cashback", .cat [.liti "cash", reS0, .liti "back"]], .wb],
    .cat [.wb, .liti "gift", reS0, .liti "card"] ]

/-- `detectionRules.definiteNonFood.fees` -/
def feesPatterns : List RE :=
  [ .cat [.wb, .altL [.liti "bag", .liti "bottle", .liti "container", .liti "recycling",
          .liti "environmental"], reS0,
          .altL [.liti "fee", .liti "charge", .liti "deposit"]],
    .cat [.wb, .liti "crv", .wb],
    .cat [.wb, .altL [.liti "service", .liti "handling", .liti "processing",
          .liti "delivery", .liti "convenience"], reS0, .altL [.liti "fee", .liti "charge"]],
    .cat [.wb, .altL [.liti "plastic", .liti "paper", .liti "shopping"], reS0, .liti "bag"],
    .cat [.wb, .liti "deposit", reS0, .altL [.liti "fee", .liti "charge"]] ]

/-- `detectionRules.definiteNonFood.coupons` -/
def couponsPatterns : List RE :=
  [ .cat [.wb, .altL [.liti "manufacturer", .liti "store", .liti "digital", .liti "mobile",
          .liti "app"], reS0, .altL [.liti "coupon", .liti "discount"]],
    .cat [.wb, .liti "scanned", reS0, .liti "coupon"],
    .cat [.wb, .liti "mfr", reS0, .liti "coupon"],
    .cat [.wb, .altL [.liti "member", .liti "club", .liti "card"], reS0,
          .altL [.liti "savings", .liti "discount", .liti "price"]],
    .cat [.wb, .liti "total", reS0, .liti "savings"],
    .cat [.wb, .liti "you", reS0, .liti "saved"],
    .cat [.bos, rePrice, .lit "-", .eos],
    .cat [.lit "-", reS0, .opt (.lit "$"), rePrice, .eos],
    .cat [.wb, .altL [.liti "promo", .liti "promotion", .liti "deal", .liti "offer",
          .liti "rebate"], .wb] ]

/-- `detectionRules.definiteNonFood`, keyed in `Object.entries` order. -/
def definiteNonFood : List (String × List RE) :=
  [("tax", taxPatterns), ("payment", paymentPatterns), ("fees", feesPatterns),
   ("coupons", couponsPatterns)]

/-- `detectionRules.storeServices` -/
def storeServices : List RE :=
  [ .cat [.wb, .liti "store", reS0, .plus reD],
    .cat [.wb, .altL [.liti "manager", .liti "employee", .liti "staff", .liti "cashier"], .wb],
    .cat [.wb, .altL [.liti "receipt", .liti "transaction"], reS0,
          .altL [.liti "number", .liti "id", .lit "#"]],
    .cat [.wb, .liti "your", reS0, .liti "cashier", reS0, .liti "today", reS0, .liti "was"],
    .cat [.wb, .liti "thank", reS0, .liti "you", reS0, .liti "for", reS0, .liti "shopping"],
    .cat [.wb, .altL [.liti "date", .liti "time", .liti "address", .liti "phone"], reS0,
          .char (fun c => c = ':' || c = '=')],
    .cat [.wb, .between reD 1 2, .lit "/", .between reD 1 2, .lit "/", .between reD 2 4, .wb],
    .cat [.wb, .rep reD 3, .lit "-", .rep reD 3, .lit "-", .rep reD 4, .wb],
    .cat [.wb, .plus reD, reS0, .altL [.liti "first", .liti "main", .liti "state",
          .liti "road", .liti "street", .liti "ave", .liti "blvd"], .wb] ]

/-- `detectionRules.likelyNonFood`, keyed in `Object.entries` order. -/
def likelyNonFood : List (String × List RE) :=
  [ ("personalCare",
     [ .cat [.wb, .altL [.liti "shampoo", .liti "conditioner", .liti "soap", .liti "lotion",
             .liti "deodorant", .liti "toothpaste", .liti "mouthwash"], .wb],
       .cat [.wb, .altL [.liti "razor", .liti "shaving", .liti "cologne", .liti "perfume",
             .liti "makeup", .liti "lipstick", .liti "foundation"], .wb],
       .cat [.wb, .altL [.liti "bandaid", .cat [.liti "first", reS0, .liti "aid"],
             .liti "medicine", .liti "vitamin", .liti "supplement", .liti "aspirin",
             .liti "tylenol", .liti "advil"], .wb],
       .cat [.wb, .altL [.liti "feminine", .liti "tampons", .liti "pads", .liti "pregnancy",
             .liti "test"], .wb] ]),
    ("household",
     [ .cat [.wb, .altL [.liti "detergent", .cat [.liti "fabric", reS0, .liti "softener"],
             .liti "bleach", .liti "cleaner", .liti "disinfectant", .liti "windex",
             .liti "lysol"], .wb],
       .cat [.wb, .altL [.cat [.liti "toilet", reS0, .liti "paper"],
             .cat [.liti "paper", reS0, .liti "towel"], .liti "tissue", .liti "napkin",
             .liti "kleenex", .liti "charmin", .liti "bounty"], .wb],
       .cat [.wb, .altL [.cat [.liti "trash", reS0, .liti "bag"],
             .cat [.liti "garbage", reS0, .liti "bag"],
             .cat [.liti "storage", reS0, .liti "bag"],
             .cat [.liti "aluminum", reS0, .liti "foil"],
             .cat [.liti "plastic", reS0, .liti "wrap"]], .wb],
       .cat [.wb, .altL [.cat [.liti "light", reS0, .liti "bulb"], .liti "battery",
             .liti "batteries", .cat [.liti "extension", reS0, .liti "cord"],
             .cat [.liti "air", reS0, .liti "freshener"]], .wb] ]),
    ("pharmacy",
     [ .cat [.wb, .altL [.liti "prescription", .liti "rx", .liti "pharmacy",
             .liti "medication", .liti "pills", .liti "tablets", .liti "capsules"], .wb],
       .cat [.wb, .altL [.liti "cough", .liti "cold", .liti "flu", .liti "allergy",
             .cat [.liti "pain", reS0, .liti "relief"], .liti "antacid", .liti "laxative"], .wb],
       .cat [.wb, .altL [.cat [.liti "blood", reS0, .liti "pressure"], .liti "diabetes",
             .liti "insulin", .liti "heart", .liti "cholesterol"], .wb] ]),
    ("babyPet",
     [ .cat [.wb, .altL [.liti "diaper", .liti "wipe",
             .cat [.liti "baby", reS0, .altL [.liti "food", .liti "formula", .liti "oil",
                   .liti "powder", .liti "lotion"]]], .wb],
       .cat [.wb, .altL [.liti "cat", .liti "dog", .liti "pet"], reS0,
             .altL [.liti "food", .liti "treat", .liti "toy", .liti "litter",
                    .liti "collar", .liti "leash"], .wb],
       .cat [.wb, .altL [.liti "purina", .liti "pedigree", .liti "friskies",
             .cat [.liti "meow", reS0, .liti "mix"], .liti "iams", .liti "whiskas"], .wb] ]),
    ("nonEdible",
     [ .cat [.wb, .altL [.liti "magazine", .liti "newspaper", .liti "book",
             .cat [.liti "greeting", reS0, .liti "card"],
             .cat [.liti "gift", reS0, .liti "card"],
             .cat [.liti "phone", reS0, .liti "card"]], .wb],
       .cat [.wb, .altL [.liti "lottery", .liti "scratch", .liti "ticket", .liti "cigarette",
             .liti "tobacco", .liti "vape", .liti "electronic"], .wb],
       .cat [.wb, .altL [.liti "flower", .liti "plant", .liti "garden", .liti "fertilizer",
             .liti "mulch", .liti "seeds"], .wb] ]) ]

/-- `nonFoodBrands`, keyed in `Object.entries` order. -/
def nonFoodBrands : List (String × List String) :=
  [ ("personalCare",
     ["dove", "olay", "head shoulders", "pantene", "herbal essences", "aussie", "tresemme",
      "colgate", "crest", "oral-b", "listerine", "scope", "aquafresh",
      "gillette", "schick", "venus", "old spice", "axe", "degree", "secret",
      "covergirl", "maybelline", "revlon", "loreal", "neutrogena", "cetaphil"]),
    ("household",
     ["tide", "downy", "gain", "cascade", "finish", "dawn", "joy",
      "lysol", "clorox", "windex", "febreze", "glade", "air wick",
      "charmin", "bounty", "scott", "kleenex", "puffs", "angel soft",
      "glad", "hefty", "ziploc", "reynolds", "saran"]),
    ("pharmacy",
     ["tylenol", "advil", "aleve", "motrin", "bayer", "excedrin",
      "benadryl", "claritin", "zyrtec", "allegra", "sudafed",
      "robitussin", "mucinex", "dayquil", "nyquil", "pepto", "tums",
      "centrum", "nature made", "one a day", "flintstones"]),
    ("babyPet",
     ["pampers", "huggies", "luvs", "honest", "seventh generation",
      "similac", "enfamil", "gerber", "earth best",
      "purina", "pedigree", "friskies", "meow mix", "iams", "whiskas",
      "blue buffalo", "hills", "royal canin", "wellness"]) ]

/-- `/^\d+[a-z]*\d*$/i` (layer 7 product-code shape). -/
def codeShape : RE :=
  .cat [.bos, .plus reD, .star (.char (fun c => isLetterChar c)), .star reD, .eos]

/-- The optional `context` argument of `detectNonFood`. -/
structure NFContext where
  storeName : Option String
  allItems : Option (List (String × ℚ))
  itemIndex : Option Nat
  deriving DecidableEq, Repr

/-- `NonFoodDetectionResult` without the free-text `reason`. -/
structure NFResult where
  isNonFood : Bool
  confidence : ℚ
  category : String
  suggestedAction : String
  deriving DecidableEq, Repr

/-- `analyzeReceiptContext` evaluated at one index, composed with the
`contextScores.get(index) || 0` read of layer 5. -/
def contextScoreOf (items : List (String × ℚ)) (storeName : String) (index : Nat) : ℚ :=
  match items.get? index with
  | none => 0
  | some it =>
    let price := it.2
    let t1 : ℚ := if 100 < price then 8/10 else if 50 < price then 4/10 else 0
    let t2 : ℚ := if price.den == 1 && 20 ≤ price then 3/10 else 0
    let t3 : ℚ := if price < 0 then 9/10 else 0
    let t4 : ℚ := if items.length - index ≤ 3 && 20 < price then 2/10 else 0
    let t5 : ℚ :=
      if containsSub storeName.toList "PHARMACY".toList ||
         containsSub storeName.toList "CVS".toList ||
         containsSub storeName.toList "WALGREENS".toList then 1/10 else 0
    t1 + t2 + t3 + t4 + t5

/-- Layer 1: first `definiteNonFood` category with a matching pattern. -/
def definiteCat (nm : List Char) : Option String :=
  definiteNonFood.findSome? fun p => if p.2.any (fun r => reTest r nm) then some p.1 else none

/-- Layers 3–4 accumulate `(confidence, category)` by
`confidence = max confidence c; category = cat` on every match. -/
def likelyStep (nm : List Char) (acc : ℚ × String) (p : String × List RE) : ℚ × String :=
  if p.2.any (fun r => reTest r nm) then (max acc.1 (17/20), p.1) else acc

def brandStep (nm : List Char) (acc : ℚ × String) (p : String × List String) : ℚ × String :=
  p.2.foldl (fun a b => if containsSub nm (lowerStr b.toList) then (max a.1 (4/5), p.1) else a) acc

/-- Layer 5: `confidence = Math.max(confidence, contextScore)` when both
`allItems` and `itemIndex` are supplied. -/
def contextLayer (ctx : Option NFContext) (acc : ℚ × String) : ℚ × String :=
  match ctx with
  | some c =>
    match c.allItems, c.itemIndex with
    | some items, some i =>
      (max acc.1 (contextScoreOf items (jsOrStr c.storeName "") i), acc.2)
    | _, _ => acc
  | none => acc

/-- Layer 6 for a non-negative (or absent) price: the `>100` and
round-`≥50` heuristics. -/
def priceLayer (price : Option ℚ) (acc : ℚ × String) : ℚ × String :=
  match price with
  | none => acc
  | some p =>
    let a1 : ℚ := if 100 < p then max acc.1 (7/10) else acc.1
    if 50 ≤ p && p.den == 1 then (max a1 (3/5), "payment") else (a1, acc.2)

/-- Layers 6–7 and the final verdict assembly. -/
def detectTail (nm : List Char) (price : Option ℚ) (acc : ℚ × String) : NFResult :=
  let acc6 := priceLayer price acc
  let c7a : ℚ := if nm.length < 3 then max acc6.1 (7/10) else acc6.1
  let c7 : ℚ := if reTest codeShape nm then max c7a (4/5) else c7a
  { isNonFood := 3/5 ≤ c7
    confidence := c7
    category := if 3/5 ≤ c7 then acc6.2 else "other"
    suggestedAction := if 17/20 ≤ c7 then "hide" else if 3/5 ≤ c7 then "review" else "keep" }

/-- The body of `detectNonFood` after `itemName.toLowerCase().trim()`. -/
def detectCore (nm : List Char) (price : Option ℚ) (ctx : Option NFContext) :
    NFResult :=
  match definiteCat nm with
  | some cat => { isNonFood := true, confidence := 19/20, category := cat,
                  suggestedAction := "hide" }
  | none =>
    if storeServices.any (fun r => reTest r nm) then
      { isNonFood := true, confidence := 9/10, category := "service",
        suggestedAction := "hide" }
    else
      let acc3 := likelyNonFood.foldl (likelyStep nm) (0, "other")
      let acc4 := nonFoodBrands.foldl (brandStep nm) acc3
      let acc5 := contextLayer ctx acc4
      match price with
      | some p =>
        if p < 0 then
          { isNonFood := true, confidence := 19/20, category := "discount",
            suggestedAction := "hide" }
        else detectTail nm price acc5
      | none => detectTail nm price acc5

/-- `EnhancedNonFoodDetector.detectNonFood`
(`const name = itemName.toLowerCase().trim()` then the layer cascade). -/
def detectNonFood (itemName : String) (price : Option ℚ) (ctx : Option NFContext) :
    NFResult :=
  detectCore (jsTrim (lowerStr itemName.toList)) price ctx

/-! ## `isOCRTextGarbled` (`src/unnamed/part_001` 608–719) -/

/-- `[A-Z\s]` -/
def reUpSp : RE := .char (fun c => isUpperChar c || isSpaceChar c)
/-- `[A-Z]` -/
def reUp : RE := .char isUpperChar
/-- `[a-z]` -/
def reLow : RE := .char isLowerChar
/-- `[a-zA-Z]` -/
def reLetter : RE := .char isLetterChar
/-- `.` (no `s` flag: anything but a line terminator) -/
def reDot : RE := .char (fun c => !(c = '\n' || c = '\r'))
/-- `[BCDFGHJKLMNPQRSTVWXYZ]` -/
def reConsUp : RE := .char (fun c => isUpperChar c && !(c = 'A' || c = 'E' || c = 'I' || c = 'O' || c = 'U'))

/-- The `extremeGarblingIndicators` array (case-sensitive, counted with `g`). -/
def extremeGarblingIndicators : List RE :=
  [ .cat [.atLeast reUp 3, reS1, .atLeast reUp 3, reS1, .atLeast reUp 3],
    .cat [.wb, reUp, .between reLow 1 2, reS1, reUp, .between reLow 1 2, reS1,
          reUp, .between reLow 1 2, reS1, reUp, .between reLow 1 2],
    .cat [.bos, .plus reUpSp, .atLeast reUp 10],
    .cat [.plus reUp,
          .atLeast (.char (fun c => !(isLetterChar c || isSpaceChar c || isDigitChar c))) 3,
          reUp],
    .cat [.wb, .atLeast reConsUp 5, .wb],
    .cat [.bos, .altL [.lit "LLL", .lit "RRR", .lit "NNN", .lit "DDD", .lit "TTT",
          .lit "SSS"], .char isSpaceChar],
    .cat [.atLeast reUp 2, reS1, .atLeast reUp 2, reS1, .atLeast reUp 2, reS1,
          .atLeast reUp 2, reS1, .atLeast reUp 2] ]

/-- The whitelist of valid receipt line shapes (`isValidReceiptLine`). -/
def validLinePatterns : List RE :=
  [ .cat [.bos, .plus reD, .lit ".", .rep reD 2, .eos],
    .cat [.bos, .plus reUpSp, reS1, rePrice, .eos],
    .cat [.bos, .altL [.lit "SUBTOTAL", .lit "TAX", .lit "TOTAL", .lit "Order",
          .lit "Sales", .lit "Grand"], reS1, rePrice],
    .cat [.bos, .altL [.lit "Credit", .lit "Cash", .lit "Change", .lit "Payment"],
          .char isSpaceChar],
    .cat [.bos, rePrice, reS1, .lit "lb", reS1, .lit "@"],
    .cat [.bos, .lit "Store", reS1, .opt (.lit "#"), .plus reD],
    .cat [.bos, .atLeast reD 3, .plus (.char (fun c => isSpaceChar c || c = '-')),
          .plus (.char (fun c => isLetterChar c || isSpaceChar c))],
    .cat [.bos, .liti "Thank", reS1, .liti "you"],
    .cat [.bos, .lit "Items:", reS1, .plus reD],
    .cat [.bos, .altL [.liti "SAFEWAY", .liti "PUBLIX", .liti "KROGER", .liti "TARGET",
          .liti "WALMART", .cat [.liti "WHOLE", reS1, .liti "FOODS"], .liti "TRADER",
          .liti "COSTCO", .liti "SPROUTS"]],
    .cat [.bos, .atLeast reUpSp 5, reS1, rePrice, reS0,
          .opt (.char (fun c => c = 'S' || c = 'T')), .eos],
    .cat [.bos, .altL [.liti "GROCERY", .liti "PRODUCE", .liti "REFRIG", .liti "FROZEN",
          .cat [.liti "BAKED", reS1, .liti "GOODS"],
          .cat [.liti "GEN", reS1, .liti "MERCHANDISE"]]],
    .cat [.bos, .plus (.char isWordChar), reS1, .plus (.char isWordChar), reS1,
          .plus (.char isWordChar), reS1, rePrice, .eos] ]

/-- The meaningful-word list of garbled-pattern 8 (case-sensitive). -/
def meaningfulWords : RE :=
  .cat [.wb, .altL ((["FRESH", "ORGANIC", "FROZEN", "BREAD", "MILK", "EGGS", "CHEESE",
    "MEAT", "CHICKEN", "BEEF", "APPLE", "BANANA", "POTATO", "CARROT", "TOMATO",
    "LETTUCE", "PASTA", "RICE", "BUTTER", "JUICE", "SOUP", "CEREAL", "YOGURT",
    "SAFEWAY", "PUBLIX", "KROGER", "MUSTARD", "BUTTER", "LIME", "LASTING",
    "MERCHANDISE", "TOOTHPASTE", "POTATOES"] : List String).map RE.lit), .wb]

/-- `/\b[a-zA-Z]{1,2}\b/` wrapped tiny-word pattern piece. -/
def tinyWord : RE := .cat [.wb, .between reLetter 1 2, .wb]

/-- The garbled-pattern disjunction for one cleaned line (`isGarbled`). -/
def lineIsGarbled (cl : List Char) : Bool :=
  reTest (.cat [.bos, .plus reUpSp, .atLeast reUp 6]) cl ||
  reTest (.cat [tinyWord, .star reDot, tinyWord, .star reDot, tinyWord, .star reDot,
                tinyWord]) cl ||
  reTest (.cat [.plus reUp,
          .atLeast (.char (fun c => !(isLetterChar c || isSpaceChar c || isDigitChar c))) 2]) cl ||
  reTest (.cat [.wb, reUp, .between reLow 1 2, reS1, reUp, .between reLow 1 2, reS1,
                reUp, .between reLow 1 2]) cl ||
  (decide (8 < cl.length) &&
    !reTest (.char (fun c => c = 'a' || c = 'e' || c = 'i' || c = 'o' || c = 'u' ||
                             c = 'A' || c = 'E' || c = 'I' || c = 'O' || c = 'U')) cl &&
    reTest (.atLeast reLetter 4) cl &&
    !reTest (.cat [.bos, .plus reD]) cl &&
    !reTest (.cat [.bos, .plus (.char (fun c => !isLetterChar c)), .eos]) cl) ||
  reTest (.atLeast reConsUp 4) cl ||
  reTest (.cat [.bos, .altL [.lit "LLL", .lit "RRR", .lit "NNN", .lit "DDD", .lit "TTT",
          .lit "SSS", .lit "MMM", .lit "PPP"], .char isSpaceChar]) cl ||
  (decide (15 < cl.length) &&
    reTest (.cat [.bos, .plus reUpSp, .eos]) cl &&
    !reTest meaningfulWords cl) ||
  reTest (.cat [.wb, .altL [.lit "WRC", .lit "TENA", .lit "RETRANRAN", .lit "VEATE",
          .lit "NWN", .lit "BERR", .lit "RETR", .lit "LER", .lit "SELLER"], .wb]) cl

/-- Does one cleaned line match the valid-receipt-line whitelist? -/
def lineIsValid (cl : List Char) : Bool := validLinePatterns.any (fun r => reTest r cl)

/-- The non-empty trimmed-nonblank lines the detector iterates over. -/
def garbledLinesOf (text : String) : List (List Char) :=
  (splitOn '\n' text.toList).filter (fun l => 0 < (jsTrim l).length)

/-- `extremeGarblingCount` over the newline-flattened whole text. -/
def extremeCount (text : String) : Nat :=
  let entire := text.toList.map (fun c => if c = '\n' then ' ' else c)
  (extremeGarblingIndicators.map (fun r => countMatches r entire)).sum

/-- `garbledLines` of the per-line loop (length ≥ 3, not valid, garbled). -/
def garbledCount (text : String) : Nat :=
  ((garbledLinesOf text).map jsTrim).countP
    (fun cl => 3 ≤ cl.length && !lineIsValid cl && lineIsGarbled cl)

/-- `validReceiptLines` of the per-line loop (length ≥ 3 and valid). -/
def validCount (text : String) : Nat :=
  ((garbledLinesOf text).map jsTrim).countP (fun cl => 3 ≤ cl.length && lineIsValid cl)

/-- `isOCRTextGarbled`. -/
def isOCRTextGarbled (text : String) : Bool :=
  let e := extremeCount text
  if 5 < e then true
  else
    let t := (garbledLinesOf text).length
    decide ((garbledCount text : ℚ) > (t : ℚ) * (15/100)) ||
    decide ((validCount text : ℚ) < (t : ℚ) * (1/10)) ||
    decide (2 < e)

/-! ## Word-boundary literal replacement (JS `new RegExp('\\b…\\b','gi')`)

Used by `ProductNameCleaner` step 3–4 and by `productNameEnhancer`. -/

/-- JS `\b` between an optional previous character and a next character. -/
def wbBetween (prev : Option Char) (next : Option Char) : Bool :=
  (match prev with | none => false | some c => isWordChar c) !=
  (match next with | none => false | some c => isWordChar c)

/-- Case-insensitive literal prefix test. -/
def prefixCI : List Char → List Char → Bool
  | [], _ => true
  | _ :: _, [] => false
  | p :: ps, c :: cs => charEqCI p c && prefixCI ps cs

/-- Does `\bpat\b` (case-insensitive) match at the split `prev`/`s`?
(Every pattern in the sources is non-empty; the emptiness guard only fixes
the degenerate case.) -/
def wbMatchHere (pat : List Char) (prev : Option Char) (s : List Char) : Bool :=
  !pat.isEmpty && wbBetween prev s.head? && prefixCI pat s &&
  wbBetween pat.getLast? (s.drop pat.length).head?

/-- First match position of `\bpat\b` at index ≥ `start`. -/
def wbFindFromAux (pat : List Char) :
    Option Char → List Char → Nat → Nat → Option Nat
  | prev, s, idx, start =>
    if start ≤ idx && wbMatchHere pat prev s then some idx
    else
      match s with
      | [] => none
      | c :: rest => wbFindFromAux pat (some c) rest (idx + 1) start

def wbFindFrom (pat s : List Char) (start : Nat) : Option Nat :=
  wbFindFromAux pat none s 0 start

/-- JS `.test` for `\bpat\b` with the `i` flag and no sticky state. -/
def wbTest (pat s : List Char) : Bool := (wbFindFrom pat s 0).isSome

/-- Replace every (left-to-right, non-overlapping) `\bpat\b` match by `rep`
(`String.replace` with a `gi` regex); `pat` is assumed non-empty, as every
pattern in the sources is. -/
def wbReplaceAllAux (pat rep : List Char) :
    Nat → Option Char → List Char → List Char
  | 0, _, s => s
  | fuel + 1, prev, s =>
    match s with
    | [] => []
    | c :: rest =>
      if wbMatchHere pat prev (c :: rest) then
        rep ++ wbReplaceAllAux pat rep fuel (((c :: rest).take pat.length).getLast?.getD c)
          ((c :: rest).drop pat.length)
      else
        c :: wbReplaceAllAux pat rep fuel (some c) rest

def wbReplaceAll (pat rep s : List Char) : List Char :=
  wbReplaceAllAux pat rep (s.length + 1) none s

/-! ## ProductNameCleaner (`src/unnamed/part_006`)

The six `characterSubstitutions` are regex literals with the `g` flag
stored in a *static* object, so their mutable `lastIndex` survives between
calls to `cleanProductName`; we model that state explicitly as a
`CSubState`.  `pattern.test(name)` searches from `lastIndex`, setting it to
the match end on success and `0` on failure; `name.replace(pattern, …)`
(global) rewrites every match and leaves `lastIndex = 0`. -/

/-- The six character-substitution patterns, in source order. -/
inductive CSub where
  | zeroStart   -- `/\b0(?=[A-Z])/g → 'O'`
  | oneStart    -- `/\b1(?=[A-Z])/g → 'I'`
  | zeroBetween -- `/(?<=[A-Z])0(?=[A-Z])/g → 'O'`
  | oneBetween  -- `/(?<=[A-Z])1(?=[A-Z])/g → 'I'`
  | vv          -- `/\bVV/g → 'W'`
  | uVowel      -- `/\bU([AEIOU])/g → 'O$1'`
  deriving DecidableEq, Repr

def isVowelUp (c : Char) : Bool :=
  c = 'A' || c = 'E' || c = 'I' || c = 'O' || c = 'U'

/-- Match of one substitution pattern at index `i` of `s`:
`some (len, replacement)` (lookarounds consume nothing). -/
def csubMatchAt (k : CSub) (s : List Char) (i : Nat) : Option (Nat × List Char) :=
  let prev := if i = 0 then none else s.get? (i - 1)
  let prevNonWord := match prev with | none => true | some c => !isWordChar c
  let prevUpper := match prev with | none => false | some c => isUpperChar c
  match k with
  | .zeroStart =>
    if s.get? i = some '0' && prevNonWord &&
       (match s.get? (i+1) with | some c => isUpperChar c | none => false) then
      some (1, ['O']) else none
  | .oneStart =>
    if s.get? i = some '1' && prevNonWord &&
       (match s.get? (i+1) with | some c => isUpperChar c | none => false) then
      some (1, ['I']) else none
  | .zeroBetween =>
    if s.get? i = some '0' && prevUpper &&
       (match s.get? (i+1) with | some c => isUpperChar c | none => false) then
      some (1, ['O']) else none
  | .oneBetween =>
    if s.get? i = some '1' && prevUpper &&
       (match s.get? (i+1) with | some c => isUpperChar c | none => false) then
      some (1, ['I']) else none
  | .vv =>
    if s.get? i = some 'V' && prevNonWord && s.get? (i+1) = some 'V' then
      some (2, ['W']) else none
  | .uVowel =>
    match s.get? (i+1) with
    | some v =>
      if s.get? i = some 'U' && prevNonWord && isVowelUp v then
        some (2, ['O', v]) else none
    | none => none

/-- First match of `k` at an index ≥ `start` (the `lastIndex` search). -/
def csubFindFrom (k : CSub) (s : List Char) (start : Nat) : Option (Nat × Nat × List Char) :=
  (List.range (s.length + 1)).findSome? fun i =>
    if start ≤ i then (csubMatchAt k s i).map (fun p => (i, p.1, p.2)) else none

/-- Global replacement of every match of `k` (splicing left to right). -/
def csubReplaceFrom (k : CSub) (s : List Char) : Nat → Nat → List Char
  | pos, steps =>
    match steps with
    | 0 => s.drop pos
    | steps + 1 =>
      match csubFindFrom k s pos with
      | none => s.drop pos
      | some (i, len, rep) =>
        (s.drop pos).take (i - pos) ++ rep ++
          csubReplaceFrom k s (max (i + len) (i + 1)) steps

def csubReplaceAll (k : CSub) (s : List Char) : List Char :=
  csubReplaceFrom k s 0 (s.length + 1)

/-- `description` strings of the six substitutions. -/
def csubDescription : CSub → String
  | .zeroStart => "OCR: 0→O before letters"
  | .oneStart => "OCR: 1→I before letters"
  | .zeroBetween => "OCR: 0→O between letters"
  | .oneBetween => "OCR: 1→I between letters"
  | .vv => "OCR: VV→W"
  | .uVowel => "OCR: U+vowel→O+vowel"

/-- The persistent `lastIndex` values of the six static `g`-regexes. -/
structure CSubState where
  s0 : Nat
  s1 : Nat
  s2 : Nat
  s3 : Nat
  s4 : Nat
  s5 : Nat
  deriving DecidableEq, Repr

/-- The pristine state (all `lastIndex` zero). -/
def initCSub : CSubState := ⟨0, 0, 0, 0, 0, 0⟩

/-- One `if (pattern.test(name)) { replace; … }` block: `test` searches
from `lastIndex`; afterwards `lastIndex` is `0` on either path (reset by
the failed `exec` resp. by the global `replace`). -/
def csubBlock (k : CSub) (li : Nat) (nm : List Char) :
    List Char × Nat × Option String :=
  let found := (csubFindFrom k nm li).isSome
  ((if found then csubReplaceAll k nm else nm), 0,
   (if found then some (csubDescription k) else none))

/-- `ProductNameCleaningResult`. -/
structure CleanResult where
  originalName : String
  cleanedName : String
  confidence : ℚ
  appliedCorrections : List String
  deriving DecidableEq, Repr

/-- `corrections.foodTerms` in insertion order. -/
def foodTerms : List (String × String) :=
  [("CHIKEN", "CHICKEN"), ("CHICEN", "CHICKEN"), ("CHIKN", "CHICKEN"),
   ("CHICK", "CHICKEN"), ("CHCKN", "CHICKEN"),
   ("BNLS", "BONELESS"), ("SKLSS", "SKINLESS"), ("GRND", "GROUND"),
   ("BRST", "BREAST"), ("THGH", "THIGH"), ("WGNS", "WINGS"),
   ("IMPOSS", "IMPOSSIBLE"), ("BURG", "BURGER"),
   ("TOMATOE", "TOMATO"), ("POTATOE", "POTATO"), ("ONION", "ONIONS"), ("TOM", "TOMATO"),
   ("BROCOLI", "BROCCOLI"), ("BROCOLLI", "BROCCOLI"), ("CRROT", "CARROT"),
   ("AVACADO", "AVOCADO"), ("AVACODO", "AVOCADO"), ("ACOCADO", "AVOCADO"),
   ("PEPPERS", "PEPPERS"), ("BELL", "BELL"), ("CARROTS", "CARROTS"),
   ("SHALLOTS", "SHALLOTS"), ("SHLLOTS", "SHALLOTS"), ("SHALOTS", "SHALLOTS"),
   ("PERSTN", "PERSIAN"), ("PERSTAN", "PERSIAN"),
   ("MLK", "MILK"), ("CHZ", "CHEESE"), ("CHSE", "CHEESE"), ("CHEES", "CHEESE"),
   ("YOGRT", "YOGURT"), ("YOQRT", "YOGURT"), ("YOUGURT", "YOGURT"),
   ("BTR", "BUTTER"), ("CRM", "CREAM"), ("CREM", "CREAM"),
   ("FF", "FAT FREE"), ("LT", "LIGHT"), ("VANIL", "VANILLA"), ("VANILA", "VANILLA"),
   ("SCE", "SAUCE"), ("SAUGE", "SAUCE"), ("SAUSE", "SAUCE"), ("SACE", "SAUCE"),
   ("KETCHP", "KETCHUP"), ("KETCHU", "KETCHUP"), ("MUSTRD", "MUSTARD"),
   ("MAYO", "MAYONNAISE"), ("MAYON", "MAYONNAISE"),
   ("PAST", "PASTE"), ("PASTE", "PASTE"),
   ("BRD", "BREAD"), ("BRED", "BREAD"), ("RCE", "RICE"), ("RYCE", "RICE"),
   ("PST", "PASTA"), ("PSTA", "PASTA"), ("FLR", "FLOUR"), ("FLUR", "FLOUR"),
   ("W/G", "WHOLE GRAIN"), ("WG", "WHOLE GRAIN"), ("WHEAT", "WHEAT"),
   ("ORGN", "ORGANIC"), ("ORGNC", "ORGANIC"), ("ORG", "ORGANIC"), ("ORGNIC", "ORGANIC"),
   ("FRZ", "FROZEN"), ("FRZN", "FROZEN"), ("FR0Z", "FROZEN"),
   ("WHL", "WHOLE"), ("WH", "WHITE"), ("WHT", "WHITE"), ("WHTE", "WHITE"),
   ("FNCY", "FANCY"), ("PARM", "PARMESAN"), ("SHRD", "SHREDDED"),
   ("RD", "REDUCED"), ("FT", "FAT"), ("LS", "LOW SODIUM"),
   ("PAC", "PACIFIC"), ("HZ", "HEINZ"), ("JIF", "JIF"),
   ("BROTH", "BROTH"), ("CREAMY", "CREAMY")]

/-- `corrections.storeBrands` in insertion order. -/
def storeBrands : List (String × String) :=
  [("PUB", ""), ("PBX", ""), ("PUBLIX", ""),
   ("GV", "GREAT VALUE"), ("SIG", "SIGNATURE"), ("MM", "MARKETSIDE"),
   ("EQ", "EQUATE"), ("PV", "PARENT'S CHOICE"), ("SW", "SIMPLY WHITE"),
   ("KS", "KIRKLAND SIGNATURE"), ("TJ", "TRADER JOE'S"),
   ("365", "365 EVERYDAY VALUE")]

/-- `corrections.nationalBrands` in insertion order. -/
def nationalBrands : List (String × String) :=
  [("MAHATHA", "MAHATMA"), ("MAHATAMA", "MAHATMA"),
   ("JASN", "JASMINE"), ("JASH", "JASMINE"), ("JASMIN", "JASMINE"),
   ("HDISIN", "HOISIN"), ("HOSIN", "HOISIN"), ("HOYSIN", "HOISIN"),
   ("SRIRACHA", "SRIRACHA"), ("SIRACHA", "SRIRACHA"), ("SIRRACH", "SRIRACHA"),
   ("HUNTS", "HUNT'S"), ("LAYS", "LAY'S"), ("CAMPBELLS", "CAMPBELL'S"),
   ("KELLOGS", "KELLOGG'S"), ("MCDONALDS", "MCDONALD'S"),
   ("ORVILLE", "ORVILLE REDENBACHER"), ("DORITOS", "DORITOS"),
   ("CHEETOS", "CHEETOS"), ("FRITOS", "FRITOS"), ("TOSTITOS", "TOSTITOS")]

/-- `corrections.measurements` in insertion order. -/
def measurements : List (String × String) :=
  [("LB", "POUND"), ("LBS", "POUNDS"), ("OZ", "OUNCE"), ("OUNCS", "OUNCES"),
   ("PT", "PINT"), ("QT", "QUART"), ("GAL", "GALLON"), ("ML", "MILLILITER"),
   ("PK", "PACK"), ("PKG", "PACKAGE"), ("CT", "COUNT"), ("PC", "PIECE"),
   ("BX", "BOX"), ("BG", "BAG"), ("BTL", "BOTTLE"), ("CAN", "CAN")]

/-- `wordCategories` of step 3, in source order. -/
def wordCategories : List (String × List (String × String)) :=
  [("Food terms", foodTerms), ("Store brands", storeBrands),
   ("National brands", nationalBrands), ("Measurements", measurements)]

/-- One step-3 dictionary entry: fresh `gi` word-boundary regex, `test`
then global replace, confidence `+0.1`, audit entry `cat: wrong→right`. -/
def wordDictStep (cat : String) (acc : List Char × ℚ × List String)
    (p : String × String) : List Char × ℚ × List String :=
  if wbTest p.1.toList acc.1 then
    (wbReplaceAll p.1.toList p.2.toList acc.1, acc.2.1 + 1/10,
     acc.2.2 ++ [cat ++ ": " ++ p.1 ++ "→" ++ p.2])
  else acc

/-- Step-1 removal patterns (fresh regexes, no persistent state). -/
def reLongCode : RE := .cat [.wb, .atLeast reD 12, .star reUp, .wb]
def reTrailTwoUp : RE := .cat [.plus (.char isSpaceChar), .between reUp 1 2, .eos]
def reTrailStatus : RE :=
  .cat [.wb, .altL [.lit "F", .lit "T", .lit "E", .lit "X", .lit "KF", .lit "MD",
        .lit "LG", .lit "SM", .lit "XL", .lit "XXL"], .eos]

/-- Spans of the `g`-matches of `r` in `s` (start, end). -/
def reMatchSpansAux (r : RE) (fuel : Nat) (s : List Char) : Nat → Nat → List (Nat × Nat)
  | pos, steps =>
    match steps with
    | 0 => []
    | steps + 1 =>
      match searchFrom r fuel none s 0 pos with
      | none => []
      | some (st, rest) =>
        let en := s.length - rest.length
        (st, en) :: reMatchSpansAux r fuel s (if en = st then st + 1 else en) steps

def reMatchSpans (r : RE) (s : List Char) : List (Nat × Nat) :=
  reMatchSpansAux r (fuelFor r s) s 0 (s.length + 2)

/-- Splice `rep` over the spans (assumed ascending and disjoint, as
produced by `reMatchSpans`). -/
def spliceSpans (rep : List Char) : List Char → Nat → List (Nat × Nat) → List Char
  | s, _, [] => s
  | s, base, (st, en) :: spans =>
      s.take (st - base) ++ rep ++
        spliceSpans rep (s.drop (en - base)) en spans

/-- JS `s.replace(r, rep)` for a global regex. -/
def reReplaceAll (r : RE) (rep : List Char) (s : List Char) : List Char :=
  spliceSpans rep s 0 (reMatchSpans r s)

/-- Step-4 literal phrase rewrites (`gi`, word-bounded). -/
def specialPhrases : List (String × String) :=
  [("TOM/PASTE", "TOMATO PASTE"), ("RD FT", "REDUCED FAT"),
   ("FF LT", "FAT FREE LIGHT"), ("W/G WHEAT", "WHOLE GRAIN WHEAT"),
   ("FNCY PARM SHRD", "FANCY PARMESAN SHREDDED")]

/-- `ProductNameCleaner.cleanProductName`, with the static regex state
threaded explicitly: returns the result and the state left for the next
call. -/
def cleanProductName (st : CSubState) (name : String) : CleanResult × CSubState :=
  let original := name
  -- Step 1: remove technical codes
  let n1 := jsTrim (reReplaceAll reLongCode [] name.toList)
  let n2 := jsTrim (reReplaceAll reTrailTwoUp [] n1)
  let n3 := jsTrim (reReplaceAll reTrailStatus [] n2)
  -- Step 2: character-level OCR corrections (stateful static regexes)
  let b0 := csubBlock .zeroStart st.s0 n3
  let b1 := csubBlock .oneStart st.s1 b0.1
  let b2 := csubBlock .zeroBetween st.s2 b1.1
  let b3 := csubBlock .oneBetween st.s3 b2.1
  let b4 := csubBlock .vv st.s4 b3.1
  let b5 := csubBlock .uVowel st.s5 b4.1
  let stOut : CSubState := ⟨b0.2.1, b1.2.1, b2.2.1, b3.2.1, b4.2.1, b5.2.1⟩
  let corr2 := [b0.2.2, b1.2.2, b2.2.2, b3.2.2, b4.2.2, b5.2.2].filterMap id
  let conf2 : ℚ := 8/10 + (corr2.length : ℚ) * (1/20)
  -- Step 3: word-level dictionary corrections
  let a3 := wordCategories.foldl
    (fun acc cat => cat.2.foldl (wordDictStep cat.1) acc) (b5.1, conf2, corr2)
  -- Step 4: special phrase rewrites
  let n4 := specialPhrases.foldl (fun nm p => wbReplaceAll p.1.toList p.2.toList nm) a3.1
  -- Step 5: whitespace cleanup
  let n5 := jsTrim (collapseSpaces n4)
  -- Step 6: validation
  if reTest (.cat [.bos, .plus reD, .eos]) n5 || n5.length < 3 ||
     reTest (.cat [.bos, .star (.char (fun c => isDigitChar c || isSpaceChar c)), .eos]) n5 then
    ({ originalName := original, cleanedName := "", confidence := 0,
       appliedCorrections := ["Invalid product name"] }, stOut)
  else
    let changeRatio : ℚ := ((original.length : ℚ) - (n5.length : ℚ)) / (original.length : ℚ)
    let conf := if changeRatio > 1/2 then a3.2.1 * (7/10) else a3.2.1
    ({ originalName := original, cleanedName := String.mk n5,
       confidence := min conf 1, appliedCorrections := a3.2.2 }, stOut)

/-- State after a sequence of `cleanProductName` calls starting from `st`. -/
def cleanCalls (st : CSubState) (names : List String) : CSubState :=
  names.foldl (fun s n => (cleanProductName s n).2) st

/-! ## `generateUniversalGroceryReceipt` (`src/unnamed/part_001` 360–455)

`Math.random()` draws are modelled as an explicit stream of rationals in
`[0,1)`, consumed left to right; an exhausted stream draws `0`.  The
`do … while` item picker gets fuel (the JS loop can spin forever on a
degenerate stream; every stream used below succeeds at once). -/

def universalGroceryItems : List String :=
  ["BANANAS FRESH", "APPLES GALA", "CARROTS ORGANIC", "LETTUCE ROMAINE",
   "TOMATOES ON VINE", "POTATOES RUSSET", "ONIONS YELLOW", "BELL PEPPERS",
   "GROUND BEEF 85/15", "CHICKEN BREAST", "MILK 2% GALLON", "EGGS LARGE 12CT",
   "CHEESE CHEDDAR", "GREEK YOGURT", "BUTTER UNSALTED",
   "BREAD WHOLE WHEAT", "PASTA PENNE", "RICE BROWN", "OLIVE OIL",
   "CANNED TOMATOES", "BLACK BEANS CAN", "PEANUT BUTTER", "CEREAL OATS",
   "FROZEN BROCCOLI", "FROZEN BERRIES", "SOUP CHICKEN NOODLE",
   "CRACKERS WHOLE GRAIN", "GRANOLA BARS", "ORANGE JUICE"]

def genStoreNames : List String :=
  ["NEIGHBORHOOD MARKET", "FRESH FOODS MARKET", "VILLAGE GROCERY",
   "COMMUNITY MARKET", "QUALITY FOODS", "FAMILY MARKET"]

/-- One `Math.random()` draw from the stream. -/
def draw : List ℚ → ℚ × List ℚ
  | [] => (0, [])
  | x :: r => (x, r)

/-- JS `Math.round` (half towards `+∞`). -/
def jsRound (q : ℚ) : ℤ := (q + 1/2).floor

/-- JS `toFixed(2)` for the non-negative exact values arising here. -/
def toFixed2 (q : ℚ) : String :=
  let n := (jsRound (q * 100)).toNat
  toString (n / 100) ++ "." ++
    (if n % 100 < 10 then "0" ++ toString (n % 100) else toString (n % 100))

/-- `item.padEnd(30)`. -/
def padEnd (s : String) (n : Nat) : String :=
  s ++ String.mk (List.replicate (n - s.length) ' ')

/-- `parseFloat` on the price-shaped strings produced by `toFixed(2)`. -/
def parsePrice (s : List Char) : ℚ :=
  let ip := s.takeWhile isDigitChar
  let rest := s.drop ip.length
  let fp := match rest with
            | '.' :: t => t.takeWhile isDigitChar
            | _ => []
  let ipv : ℚ := (ip.foldl (fun a c => a * 10 + (c.toNat - 48)) 0 : ℕ)
  let fpv : ℚ := (fp.foldl (fun a c => a * 10 + (c.toNat - 48)) 0 : ℕ)
  ipv + fpv / (10 ^ fp.length : ℕ)

/-- `item.split(' ').pop() || '0'`. -/
def lastToken (s : String) : List Char :=
  ((splitOn ' ' s.toList).getLast?).getD ['0']

/-- The `do { … } while (usedItems.has(item))` picker. -/
def pickFresh (used : List String) : List ℚ → Nat → String × List ℚ
  | stream, 0 => ("", stream)
  | stream, fuel + 1 =>
    let (r, st) := draw stream
    let item :=
      (universalGroceryItems.get? ((r * (universalGroceryItems.length : ℚ)).floor.toNat)).getD ""
    if used.contains item then pickFresh used st fuel else (item, st)

/-- The item-selection loop (`numItems` iterations, each drawing an item
and then a price). -/
def genItemsLoop : Nat → List String → List String → List ℚ → List String × List ℚ
  | 0, _, acc, st => (acc.reverse, st)
  | n + 1, used, acc, st =>
    let (item, st1) := pickFresh used st (st.length + 1)
    let (pr, st2) := draw st1
    let line := padEnd item 30 ++ " " ++ toFixed2 (pr * 6 + 3/2)
    genItemsLoop n (item :: used) (line :: acc) st2

/-- `generateUniversalGroceryReceipt` — the output uses only the random
stream; the `ocrText`/`filename` parameters are dead in the source too. -/
def generateUniversalGroceryReceipt (ocrText : String) (filename : String)
    (stream : List ℚ) : String :=
  let (r0, st0) := draw stream
  let numItems := (r0 * 15).floor.toNat + 15
  let (lines, st1) := genItemsLoop numItems [] [] st0
  let subtotal : ℚ := (lines.map (fun l => parsePrice (lastToken l))).sum
  let tax : ℚ := (jsRound (subtotal * (875/10000) * 100) : ℚ) / 100
  let total := subtotal + tax
  let (r2, _) := draw st1
  let storeName :=
    (genStoreNames.get? ((r2 * (genStoreNames.length : ℚ)).floor.toNat)).getD ""
  storeName ++ "\nYour Local Grocery Store\n123 Main Street\nAnytown, USA 12345\n\n" ++
    String.intercalate "\n" lines ++
    "\n\nSUBTOTAL                   " ++ toFixed2 subtotal ++
    "\nTAX                        " ++ toFixed2 tax ++
    "\nTOTAL                      " ++ toFixed2 total ++
    "\n\nItems: " ++ toString numItems ++ "\nThank you for shopping!"

/-! ## `enhanceProductName` (`src/app/lib/productNameEnhancer.ts`) -/

/-- `STORE_PATTERNS`, keyed in `Object.entries` order. -/
def STORE_PATTERNS : List (String × List (String × String)) :=
  [("SAFEWAY",
    [("G-P", "Grey Poupon"), ("TATES", "Tate's"), ("SPINDRIFT", "Spindrift"),
     ("LND O LKS", "Land O Lakes"), ("AMYS", "Amy's"), ("SIG", "Signature"),
     ("WT", "Weight"), ("CRV", "California Redemption Value"),
     ("GALBANI", "Galbani"), ("PUFFS", "Puffs"), ("BOUNCE", "Bounce"),
     ("PRECIOUS GALBANI", "Precious Galbani"), ("WHOLE GRAIN", "Whole Grain")]),
   ("WALMART",
    [("GV", "Great Value"), ("MM", "Marketside"), ("EQ", "Equate"),
     ("MV", "Member's Mark"), ("HRI", "Hormel"), ("CL", "Classic"),
     ("CHS", "Cheese"), ("PEP", "Pepperoni"), ("USG", "Usage"),
     ("SC", "South Carolina"), ("BCN", "Bacon"), ("CHDDR", "Cheddar"),
     ("ABF", "ABF"), ("THINBRST", "Thin Crust"), ("DV", "Dove"),
     ("RSE", "Rose"), ("LT", "Light"), ("SWT", "Sweet"), ("BUTTR", "Butter"),
     ("AVO", "Avocado"), ("VERDE", "Verde"), ("BTS", "Boots"),
     ("BLON", "Blonde"), ("TR", "Trail"), ("HS", "House"), ("FRM", "From"),
     ("HNY", "Honey"), ("GRMS", "Grams"), ("ENTYSAS", "Entity SAS"),
     ("PAL ORI", "Palmolive Original"), ("TIDEHEORG", "Tide HE Original"),
     ("CHRMNSF", "Charmin Soft"), ("WHT GRAN SUG", "White Granulated Sugar"),
     ("ZPR SANDW", "Zipper Sandwich"), ("POUF", "Pouf"), ("PALOMA", "Paloma"),
     ("CCSERVINGBWL", "CC Serving Bowl"), ("FUSILL", "Fusilli"),
     ("MS10X14BOARD", "MS 10x14 Board"), ("ELD-HARV", "Eldorado Harvest"),
     ("CHK BST BNLS", "Chicken Breast Boneless"), ("MIX VEG", "Mixed Vegetables")]),
   ("TARGET",
    [("UP&UP", "Up & Up"), ("GH", "Good & Gather"), ("MW", "Market Pantry")])]

/-- `COMMON_ABBREVIATIONS`, in `Object.entries` order. -/
def COMMON_ABBREVIATIONS : List (String × String) :=
  [("CK", "Cookies"), ("BK", "Book"), ("PK", "Pack"), ("LB", "Pound"),
   ("OZ", "Ounce"), ("FL", "Fluid"), ("CT", "Count"), ("LRG", "Large"),
   ("MED", "Medium"), ("SM", "Small"), ("REG", "Regular"), ("LT", "Light"),
   ("FF", "Fat Free"), ("LF", "Low Fat"), ("WHL", "Whole"), ("ORG", "Organic"),
   ("FRZ", "Frozen"), ("FRS", "Fresh"), ("DRY", "Dry"), ("LIQ", "Liquid"),
   ("PWD", "Powder"), ("CONC", "Concentrate"), ("UNSLTD", "Unsalted"),
   ("SLTD", "Salted"), ("SW", "Sweet"), ("UNSWT", "Unsweetened"),
   ("VAN", "Vanilla"), ("CHOC", "Chocolate"), ("STR", "Strawberry"),
   ("RSP", "Raspberry"), ("LMN", "Lemon"), ("LIM", "Lime"), ("ORNG", "Orange"),
   ("APL", "Apple"), ("BAN", "Banana"), ("GRP", "Grape"), ("BLU", "Blueberry"),
   ("BLK", "Black"), ("WHT", "White"), ("RED", "Red"), ("GRN", "Green"),
   ("YLW", "Yellow")]

/-- The enhancer's keyword→category table (`PRODUCT_CATEGORIES` in
`productNameEnhancer.ts`; renamed to avoid the clash with the parser's
category enumeration).  Each row is the list of alternatives of the
`new RegExp(keywords, 'i')` substring test, in source order. -/
def ENH_PRODUCT_CATEGORIES : List (List String × String) :=
  [(["MUSTARD", "KETCHUP", "MAYO", "SAUCE"], "Condiments"),
   (["COOKIE", "CAKE", "BREAD", "BAGEL", "MUFFIN"], "Bakery"),
   (["MILK", "CHEESE", "BUTTER", "YOGURT", "CREAM"], "Dairy"),
   (["CHICKEN", "BEEF", "PORK", "FISH", "MEAT"], "Meat"),
   (["APPLE", "BANANA", "ORANGE", "POTATO", "ONION", "CARROT"], "Produce"),
   (["SOAP", "SHAMPOO", "TOOTHPASTE", "DETERGENT", "CLEANER"],
    "Personal Care & Cleaning"),
   (["SODA", "JUICE", "WATER", "COFFEE", "TEA"], "Beverages"),
   (["PASTA", "RICE", "CEREAL", "CRACKERS", "CHIPS"], "Pantry"),
   (["ICE CREAM", "PIZZA", "VEGETABLES", "FRUIT"], "Frozen")]

/-- Case-insensitive substring containment (a `new RegExp(lit,'i')` test
for a literal alternative). -/
def containsSubCI (hay pat : List Char) : Bool :=
  containsSub (lowerStr hay) (lowerStr pat)

/-- Does the category row match the name (the `'i'` alternation test)? -/
def enhRowMatch (row : List String × String) (nm : List Char) : Bool :=
  row.1.any (fun kw => containsSubCI nm kw.toList)

/-- The initial clean-up:
`trim`, `replace(/\s+/g,' ')`, `replace(/[^\w\s&'-]/g,'')`, `trim`. -/
def enhKeepChar (c : Char) : Bool :=
  isWordChar c || isSpaceChar c || c = '&' || c = '\'' || c = '-'

def enhCleanup (s : String) : List Char :=
  jsTrim ((collapseSpaces (jsTrim s.toList)).filter enhKeepChar)

/-- One abbreviation-dictionary pass: per entry, fresh `gi` `\b…\b` regex,
`test` then global replace and a confidence bump. -/
def enhDictFold (dict : List (String × String)) (bonus : ℚ)
    (acc : List Char × ℚ) : List Char × ℚ :=
  dict.foldl
    (fun a p =>
      if wbTest p.1.toList a.1 then (wbReplaceAll p.1.toList p.2.toList a.1, a.2 + bonus)
      else a)
    acc

/-- The category fold (each matching row overwrites `category` and adds
`0.1`). -/
def enhCategoryFold (nm : List Char) (conf : ℚ) : Option String × ℚ :=
  ENH_PRODUCT_CATEGORIES.foldl
    (fun a row => if enhRowMatch row nm then (some row.2, a.2 + 1/10) else a)
    (none, conf)

/-- The final cosmetic pass: split on `' '`, capitalize each word
(`charAt(0).toUpperCase() + slice(1).toLowerCase()`), re-join, collapse
whitespace, trim. -/
def capitalizeWord (w : List Char) : List Char :=
  match w with
  | [] => []
  | c :: rest => upperChar c :: lowerStr rest

def titleCasePhase (s : List Char) : List Char :=
  jsTrim (collapseSpaces (joinWith ' ' ((splitOn ' ' s).map capitalizeWord)))

/-- The state of the enhancer after the two dictionary passes (the string
on which the category is computed, and the running confidence). -/
def enhStage (originalName storeName : String) : List Char × ℚ :=
  let n0 := enhCleanup originalName
  let storeDict := (List.lookup (jsToUpper storeName) STORE_PATTERNS).getD []
  enhDictFold COMMON_ABBREVIATIONS (1/20) (enhDictFold storeDict (1/10) (n0, 7/10))

/-- `EnhancedProduct`. -/
structure EnhancedProduct where
  originalName : String
  enhancedName : String
  category : Option String
  confidence : ℚ
  deriving DecidableEq, Repr

/-- `enhanceProductName`. -/
def enhanceProductName (originalName : String) (storeName : String) : EnhancedProduct :=
  let a := enhStage originalName storeName
  let (cat, conf) := enhCategoryFold a.1 a.2
  { originalName := originalName
    enhancedName := String.mk (titleCasePhase a.1)
    category := cat
    confidence := min conf 1 }

/-- Modelled from the spec: “category (derived from a fixed
keyword→category table, first match wins)” — the category of the *first*
matching row, for comparison with the implementation. -/
def specFirstMatchCategory (nm : List Char) : Option String :=
  (ENH_PRODUCT_CATEGORIES.find? (fun row => enhRowMatch row nm)).map (·.2)

/-- The category of the *last* matching row (what the implementation's
overwriting fold computes). -/
def lastMatchCategory (nm : List Char) : Option String :=
  ((ENH_PRODUCT_CATEGORIES.filter (fun row => enhRowMatch row nm)).getLast?).map (·.2)

/-- “Dictionary-clean” for one abbreviation dictionary: no entry's
word-bounded pattern occurs in the name. -/
def enhDictClean (dict : List (String × String)) (t : List Char) : Bool :=
  dict.all (fun p => !wbTest p.1.toList t)

/-! ## Concrete random streams for the recovery generator -/

/-- A stream of `Math.random` draws: `numItems = 15`, the 15 items picked
in catalogue order with price draw `0` (price `1.50`), store index `0`. -/
def randomStreamA : List ℚ :=
  0 :: ((List.range 15).map (fun k => [(k : ℚ)/29, 0])).join ++ [0]

/-- The same stream except the final store-name draw, `1/2` (store index
`3`). -/
def randomStreamB : List ℚ :=
  0 :: ((List.range 15).map (fun k => [(k : ℚ)/29, 0])).join ++ [1/2]

/-!
# Theorems

Helper lemmas first, then one theorem per claim (with witnesses and
counterexamples where the claim's status requires them).

The Batteries `Rat` arithmetic operations are `@[irreducible]`; concrete
evaluations need them reducible again.
-/

attribute [local semireducible] Rat.add Rat.sub Rat.mul Rat.inv Rat.ofScientific

/-! ### Shared helper lemmas -/

theorem lookup_objSet_self {α : Type} (m : List (String × α)) (k : String) (v : α) :
    List.lookup k (objSet m k v) = some v := by
  induction m with
  | nil => simp [objSet, List.lookup]
  | cons p rest ih =>
    by_cases h : p.1 = k
    · simp [objSet, h, List.lookup]
    · have h1 : (p.1 == k) = false := by simp [h]
      have h2 : (k == p.1) = false := by simp [Ne.symm h]
      simp [objSet, h1, List.lookup, h2, ih]

theorem applyLearnedOne_name (pats : StorePatterns) (it : LearnItem) :
    (applyLearnedOne pats it).name = it.name := by
  unfold applyLearnedOne
  rcases List.lookup it.name pats with _ | v
  · rfl
  · dsimp only
    split_ifs <;> rfl

theorem applyLearned_length (P : AllPatterns) (items : List LearnItem) (store : String) :
    (applyLearnedEnhancements P items store).length = items.length := by
  simp [applyLearnedEnhancements]

/-! ### C10 — frame property of `applyLearnedEnhancements` -/

/-- **C10.** `applyLearnedEnhancements` returns a list of the same length
and order as its input and preserves each element's `name`; only
`enhancedName`, `wasLearned` and `shouldHide` are recomputed (those are
the only other fields of the output shape). -/
theorem C10_frame (P : AllPatterns) (items : List LearnItem) (store : String) :
    (applyLearnedEnhancements P items store).length = items.length ∧
    ∀ i (hi : i < (applyLearnedEnhancements P items store).length)
      (hj : i < items.length),
      ((applyLearnedEnhancements P items store).get ⟨i, hi⟩).name =
        (items.get ⟨i, hj⟩).name := by
  refine ⟨applyLearned_length P items store, fun i hi hj => ?_⟩
  simp only [applyLearnedEnhancements, List.get_eq_getElem, List.getElem_map]
  exact applyLearnedOne_name _ _

/-- Witness for C10 at a concrete pattern table and item list. -/
theorem C10_frame_witness :
    (applyLearnedEnhancements [("SAFEWAY", [("A", "__HIDDEN__")])]
        [⟨"A", none⟩, ⟨"B", some "Bee"⟩] "SAFEWAY").length = 2 ∧
    ((applyLearnedEnhancements [("SAFEWAY", [("A", "__HIDDEN__")])]
        [⟨"A", none⟩, ⟨"B", some "Bee"⟩] "SAFEWAY").get ⟨1, by decide⟩).name = "B" := by
  refine ⟨(C10_frame [("SAFEWAY", [("A", "__HIDDEN__")])]
      [⟨"A", none⟩, ⟨"B", some "Bee"⟩] "SAFEWAY").1, ?_⟩
  exact (C10_frame [("SAFEWAY", [("A", "__HIDDEN__")])]
      [⟨"A", none⟩, ⟨"B", some "Bee"⟩] "SAFEWAY").2 1 (by decide) (by decide)

/-! ### C1 — learning override -/

/-- **C1 (counterexample).** The claim's second half says a stored *text
value* always replaces the item's `enhancedName`.  An empty-string
correction is a text value, but it is falsy in the source's
`else if (learned)` test: after recording `""` for item `"X"` under
`SAFEWAY` the stored pattern is `some ""`, yet the item passes through
unlearned with `enhancedName = "X"`, not `""`. -/
theorem C1_empty_value_counterexample :
    List.lookup "X"
      (getLearnedPatterns (updatePatterns [] ⟨"SAFEWAY", "X", ""⟩) "SAFEWAY") = some "" ∧
    applyLearnedEnhancements (updatePatterns [] ⟨"SAFEWAY", "X", ""⟩)
      [⟨"X", none⟩] "SAFEWAY" =
      [{ name := "X", enhancedName := "X", wasLearned := false, shouldHide := none }] ∧
    ("X" : String) ≠ "" := by
  refine ⟨by decide, by decide, by decide⟩

/-- **C1 (amended).** After `updatePatterns` records the hide sentinel for
`originalText "LND O LKS BUTTER"` under store `"SAFEWAY"`, every later
`applyLearnedEnhancements` call on a list containing an item with that
name for `"SAFEWAY"` returns that item with `shouldHide = true` and
`wasLearned = true` (the function never consults the non-food classifier,
so its verdict is irrelevant); and when a pattern table stores a
*non-empty* text value other than the sentinel for an item's name, that
value replaces the item's `enhancedName` (with `wasLearned = true`).  The
empty string, being falsy in JS, is excluded — that is the amendment. -/
theorem C1_learning_override (P : AllPatterns) (items : List LearnItem) (i : Nat)
    (hj : i < items.length) :
    ((items.get ⟨i, hj⟩).name = "LND O LKS BUTTER" →
      ∃ ho : i < (applyLearnedEnhancements
          (updatePatterns P ⟨"SAFEWAY", "LND O LKS BUTTER", "__HIDDEN__"⟩)
          items "SAFEWAY").length,
        ((applyLearnedEnhancements
            (updatePatterns P ⟨"SAFEWAY", "LND O LKS BUTTER", "__HIDDEN__"⟩)
            items "SAFEWAY").get ⟨i, ho⟩).shouldHide = some true ∧
        ((applyLearnedEnhancements
            (updatePatterns P ⟨"SAFEWAY", "LND O LKS BUTTER", "__HIDDEN__"⟩)
            items "SAFEWAY").get ⟨i, ho⟩).wasLearned = true) ∧
    (∀ (Q : AllPatterns) (v : String),
      List.lookup (items.get ⟨i, hj⟩).name (getLearnedPatterns Q "SAFEWAY") = some v →
      v ≠ "__HIDDEN__" → v ≠ "" →
      ∃ ho : i < (applyLearnedEnhancements Q items "SAFEWAY").length,
        ((applyLearnedEnhancements Q items "SAFEWAY").get ⟨i, ho⟩).enhancedName = v ∧
        ((applyLearnedEnhancements Q items "SAFEWAY").get ⟨i, ho⟩).wasLearned = true) := by
  constructor
  · intro hname
    have ho : i < (applyLearnedEnhancements
        (updatePatterns P ⟨"SAFEWAY", "LND O LKS BUTTER", "__HIDDEN__"⟩)
        items "SAFEWAY").length := by
      rw [applyLearned_length]; exact hj
    refine ⟨ho, ?_⟩
    have hpat : List.lookup "LND O LKS BUTTER"
        (getLearnedPatterns
          (updatePatterns P ⟨"SAFEWAY", "LND O LKS BUTTER", "__HIDDEN__"⟩) "SAFEWAY")
        = some "__HIDDEN__" := by
      unfold updatePatterns getLearnedPatterns
      have : jsToUpper "SAFEWAY" = "SAFEWAY" := by decide
      rw [this]
      rw [show jsToUpper ("SAFEWAY" : String) = "SAFEWAY" from by decide] at *
      rw [lookup_objSet_self]
      simp [lookup_objSet_self]
    simp only [applyLearnedEnhancements, List.get_eq_getElem, List.getElem_map]
    rw [← List.get_eq_getElem items ⟨i, hj⟩] at *
    unfold applyLearnedOne
    rw [hname, hpat]
    simp
  · intro Q v hv hsent hempty
    have ho : i < (applyLearnedEnhancements Q items "SAFEWAY").length := by
      rw [applyLearned_length]; exact hj
    refine ⟨ho, ?_⟩
    simp only [applyLearnedEnhancements, List.get_eq_getElem, List.getElem_map]
    rw [← List.get_eq_getElem items ⟨i, hj⟩] at *
    unfold applyLearnedOne
    rw [hv]
    have hs : (v == "__HIDDEN__") = false := by simp [hsent]
    simp [hs, hempty]

/-- Witness for C1 at a concrete table, item list and stored correction. -/
theorem C1_learning_override_witness :
    (∃ ho : 0 < (applyLearnedEnhancements
        (updatePatterns [] ⟨"SAFEWAY", "LND O LKS BUTTER", "__HIDDEN__"⟩)
        [⟨"LND O LKS BUTTER", none⟩] "SAFEWAY").length,
      ((applyLearnedEnhancements
          (updatePatterns [] ⟨"SAFEWAY", "LND O LKS BUTTER", "__HIDDEN__"⟩)
          [⟨"LND O LKS BUTTER", none⟩] "SAFEWAY").get ⟨0, ho⟩).shouldHide = some true ∧
      ((applyLearnedEnhancements
          (updatePatterns [] ⟨"SAFEWAY", "LND O LKS BUTTER", "__HIDDEN__"⟩)
          [⟨"LND O LKS BUTTER", none⟩] "SAFEWAY").get ⟨0, ho⟩).wasLearned = true) ∧
    (∃ ho : 0 < (applyLearnedEnhancements [("SAFEWAY", [("X", "Y")])]
        [⟨"X", none⟩] "SAFEWAY").length,
      ((applyLearnedEnhancements [("SAFEWAY", [("X", "Y")])]
          [⟨"X", none⟩] "SAFEWAY").get ⟨0, ho⟩).enhancedName = "Y" ∧
      ((applyLearnedEnhancements [("SAFEWAY", [("X", "Y")])]
          [⟨"X", none⟩] "SAFEWAY").get ⟨0, ho⟩).wasLearned = true) := by
  constructor
  · exact (C1_learning_override [] [⟨"LND O LKS BUTTER", none⟩] 0 (by decide)).1 (by decide)
  · exact (C1_learning_override [("SAFEWAY", [("X", "Y")])] [⟨"X", none⟩] 0
      (by decide)).2 [("SAFEWAY", [("X", "Y")])] "Y" (by decide) (by decide) (by decide)

/-! ### C4 — total reconciliation in `validateAIResult` -/

/-- **C4.** If the AI-supplied total is absent (non-numeric, coerced to
`0`), zero, or differs from the sum of the kept items' prices by more than
50 % of that sum, `validateAIResult` returns exactly that sum as the
total; in particular an absent total always yields the sum. -/
theorem C4_total_reconciliation (ai : AIRaw)
    (h : ai.total = none ∨ ai.total = some 0 ∨
         |ai.total.getD 0 - validSum ai| > validSum ai * (1/2)) :
    (validateAIResult ai).total = validSum ai := by
  unfold validateAIResult
  rcases h with h | h | h
  · simp [h]
  · simp [h]
  · have hb : decide (|ai.total.getD 0 - validSum ai| > validSum ai * (1/2)) = true :=
      decide_eq_true h
    have hcond : (ai.total.getD 0 == 0 ||
        decide (|ai.total.getD 0 - validSum ai| > validSum ai * (1/2))) = true := by
      rw [hb]; simp
    simp only [hcond, if_true]

/-- Witness for C4: an absent total with one kept item of price `3.5`. -/
theorem C4_total_reconciliation_witness :
    validSum ⟨some "S", some [⟨some "A", some "Apple", none, some (7/2), none⟩],
        none, none⟩ = 7/2 ∧
    (validateAIResult ⟨some "S", some [⟨some "A", some "Apple", none, some (7/2), none⟩],
        none, none⟩).total = 7/2 := by
  have h := C4_total_reconciliation
    ⟨some "S", some [⟨some "A", some "Apple", none, some (7/2), none⟩], none, none⟩
    (Or.inl rfl)
  have hsum : validSum ⟨some "S",
      some [⟨some "A", some "Apple", none, some (7/2), none⟩], none, none⟩ = 7/2 := by
    decide
  exact ⟨hsum, by rw [h, hsum]⟩

/-! ### C7 — Scenario B -/

/-- **C7.** `enhanceProductName "G-P MUSTARD"` with store `"SAFEWAY"`
returns `enhancedName = "Grey Poupon Mustard"` with confidence `> 0.7`
(the computed confidence is `0.9`). -/
theorem C7_grey_poupon :
    (enhanceProductName "G-P MUSTARD" "SAFEWAY").enhancedName = "Grey Poupon Mustard" ∧
    (7/10 : ℚ) < (enhanceProductName "G-P MUSTARD" "SAFEWAY").confidence := by
  exact ⟨by set_option maxRecDepth 10000 in decide, by set_option maxRecDepth 10000 in decide⟩

/-! ### C8 — category derivation -/

/-- The overwriting category fold computes the category of the *last*
matching row (generic accumulator form). -/
theorem enhCategoryFold_eq_last (rows : List (List String × String)) (nm : List Char)
    (a : Option String × ℚ) :
    (rows.foldl (fun a row => if enhRowMatch row nm then (some row.2, a.2 + 1/10) else a) a).1
      = (match ((rows.filter (fun row => enhRowMatch row nm)).getLast?) with
         | some row => some row.2
         | none => a.1) := by
  induction rows generalizing a with
  | nil => rfl
  | cons row rest ih =>
    by_cases h : enhRowMatch row nm
    · simp only [List.foldl_cons, List.filter_cons, h, if_true]
      rw [ih]
      rcases hrest : (rest.filter (fun row => enhRowMatch row nm)).getLast? with _ | r
      · rw [List.getLast?_cons, hrest]
        simp [List.getLast?_eq_none_iff.mp hrest]
      · rw [List.getLast?_cons, hrest]
        simp
    · simp only [List.foldl_cons, List.filter_cons, h, if_false]
      rw [ih]
      simp [h]

/-- **C8 (counterexample).** The claim says the category of the *earliest*
matching table row is returned.  For `"MILK BREAD"` (no store) both the
`Bakery` row (`BREAD`, row 2) and the `Dairy` row (`MILK`, row 3) match;
the spec-modelled first-match rule gives `Bakery`, but the implementation
returns `Dairy`: each matching row overwrites the previous one. -/
theorem C8_last_match_counterexample :
    (enhanceProductName "MILK BREAD" "").category = some "Dairy" ∧
    specFirstMatchCategory (enhStage "MILK BREAD" "").1 = some "Bakery" ∧
    some ("Dairy" : String) ≠ some "Bakery" := by
  exact ⟨by set_option maxRecDepth 10000 in decide,
    by set_option maxRecDepth 10000 in decide, by decide⟩

/-- **C8 (amended).** The category returned by `enhanceProductName` is
derived from the fixed keyword→category table with the *last* matching row
(in the table's fixed order) winning, the match being computed on the
post-dictionary (pre-title-case) enhanced name. -/
theorem C8_category_last_match (name store : String) :
    (enhanceProductName name store).category = lastMatchCategory (enhStage name store).1 := by
  unfold enhanceProductName enhCategoryFold lastMatchCategory
  dsimp only
  rw [enhCategoryFold_eq_last]
  rcases h : ((ENH_PRODUCT_CATEGORIES.filter
      (fun row => enhRowMatch row (enhStage name store).1)).getLast?) with _ | r
  · rfl
  · rfl

/-! ### C2/C3 — non-food detector bounds -/

theorem contextScoreOf_bounds (items : List (String × ℚ)) (store : String) (i : Nat) :
    0 ≤ contextScoreOf items store i ∧ contextScoreOf items store i ≤ 7/5 := by
  unfold contextScoreOf
  rcases items.get? i with _ | it
  · norm_num
  · dsimp only
    by_cases hp : it.2 < 0
    · have h1 : ¬ (100 : ℚ) < it.2 := by linarith
      have h1b : ¬ (50 : ℚ) < it.2 := by linarith
      have h2 : (it.2.den == 1 && decide ((20 : ℚ) ≤ it.2)) = false := by
        have : ¬ (20 : ℚ) ≤ it.2 := by linarith
        simp [this]
      have h4 : (decide (items.length - i ≤ 3) && decide ((20 : ℚ) < it.2)) = false := by
        have : ¬ (20 : ℚ) < it.2 := by linarith
        simp [this]
      rw [if_neg h1, if_neg h1b, if_pos hp]
      simp only [h2, h4, if_false, Bool.false_eq_true]
      split_ifs <;> norm_num
    · rw [if_neg hp]
      have h1 : ∀ b : Prop, ∀ inst : Decidable b,
          0 ≤ (if b then (8:ℚ)/10 else if 50 < it.2 then 4/10 else 0) ∧
          (if b then (8:ℚ)/10 else if 50 < it.2 then 4/10 else 0) ≤ 8/10 := by
        intro b inst
        split_ifs <;> norm_num
      split_ifs <;> norm_num

theorem likely_fold_bounds (nm : List Char) (l : List (String × List RE)) (a : ℚ × String)
    (h0 : 0 ≤ a.1) (h1 : a.1 ≤ 17/20) :
    0 ≤ (l.foldl (likelyStep nm) a).1 ∧ (l.foldl (likelyStep nm) a).1 ≤ 17/20 := by
  induction l generalizing a with
  | nil => exact ⟨h0, h1⟩
  | cons p rest ih =>
    rw [List.foldl_cons]
    rcases ih (likelyStep nm a p)
      (by unfold likelyStep; split_ifs
          · exact le_trans (by norm_num) (le_max_right _ _)
          · exact h0)
      (by unfold likelyStep; split_ifs
          · exact max_le h1 (by norm_num)
          · exact h1) with ⟨ha, hb⟩
    exact ⟨ha, hb⟩

theorem brand_inner_bounds (nm : List Char) (cat : String) (bl : List String)
    (a : ℚ × String) (h0 : 0 ≤ a.1) (h1 : a.1 ≤ 17/20) :
    0 ≤ (bl.foldl (fun a b =>
        if containsSub nm (lowerStr b.toList) then (max a.1 (4/5), cat) else a) a).1 ∧
    (bl.foldl (fun a b =>
        if containsSub nm (lowerStr b.toList) then (max a.1 (4/5), cat) else a) a).1 ≤ 17/20 := by
  induction bl generalizing a with
  | nil => exact ⟨h0, h1⟩
  | cons b rest ih =>
    rw [List.foldl_cons]
    apply ih
    · split_ifs
      · exact le_trans (by norm_num) (le_max_right _ _)
      · exact h0
    · split_ifs
      · exact max_le h1 (by norm_num)
      · exact h1

theorem brand_fold_bounds (nm : List Char) (l : List (String × List String))
    (a : ℚ × String) (h0 : 0 ≤ a.1) (h1 : a.1 ≤ 17/20) :
    0 ≤ (l.foldl (brandStep nm) a).1 ∧ (l.foldl (brandStep nm) a).1 ≤ 17/20 := by
  induction l generalizing a with
  | nil => exact ⟨h0, h1⟩
  | cons p rest ih =>
    rw [List.foldl_cons]
    rcases brand_inner_bounds nm p.1 p.2 a h0 h1 with ⟨ha, hb⟩
    exact ih (brandStep nm a p) ha hb

theorem max_const_bounds (q c : ℚ) (h0 : 0 ≤ q) (h1 : q ≤ 7/5) (hc0 : 0 ≤ c)
    (hc1 : c ≤ 7/5) : 0 ≤ max q c ∧ max q c ≤ 7/5 :=
  ⟨le_trans h0 (le_max_left _ _), max_le h1 hc1⟩

theorem priceLayer_bounds (price : Option ℚ) (acc : ℚ × String)
    (h0 : 0 ≤ acc.1) (h1 : acc.1 ≤ 7/5) :
    0 ≤ (priceLayer price acc).1 ∧ (priceLayer price acc).1 ≤ 7/5 := by
  unfold priceLayer
  rcases price with _ | p
  · exact ⟨h0, h1⟩
  · dsimp only
    split_ifs <;>
      first
        | exact ⟨h0, h1⟩
        | exact max_const_bounds _ _ h0 h1 (by norm_num) (by norm_num)
        | (rcases max_const_bounds acc.1 (7/10) h0 h1 (by norm_num) (by norm_num)
            with ⟨x, y⟩
           exact max_const_bounds _ _ x y (by norm_num) (by norm_num))

theorem contextLayer_bounds (ctx : Option NFContext) (acc : ℚ × String)
    (h0 : 0 ≤ acc.1) (h1 : acc.1 ≤ 7/5) :
    0 ≤ (contextLayer ctx acc).1 ∧ (contextLayer ctx acc).1 ≤ 7/5 := by
  rcases ctx with _ | c
  · exact ⟨h0, h1⟩
  · rcases hA : c.allItems with _ | items <;> rcases hB : c.itemIndex with _ | i <;>
      simp only [contextLayer, hA, hB] <;>
      try exact ⟨h0, h1⟩
    rcases contextScoreOf_bounds items (jsOrStr c.storeName "") i with ⟨hc0, hc1⟩
    exact max_const_bounds _ _ h0 h1 hc0 hc1

theorem detectTail_bounds (nm : List Char) (price : Option ℚ) (acc : ℚ × String)
    (h0 : 0 ≤ acc.1) (h1 : acc.1 ≤ 7/5) :
    0 ≤ (detectTail nm price acc).confidence ∧
    (detectTail nm price acc).confidence ≤ 7/5 := by
  unfold detectTail
  rcases priceLayer_bounds price acc h0 h1 with ⟨h60, h61⟩
  dsimp only
  split_ifs <;>
    first
      | exact ⟨h60, h61⟩
      | exact max_const_bounds _ _ h60 h61 (by norm_num) (by norm_num)
      | (rcases max_const_bounds (priceLayer price acc).1 (7/10) h60 h61
          (by norm_num) (by norm_num) with ⟨x, y⟩
         exact max_const_bounds _ _ x y (by norm_num) (by norm_num))

theorem detectCore_confidence_bounds (nm : List Char) (price : Option ℚ)
    (ctx : Option NFContext) :
    0 ≤ (detectCore nm price ctx).confidence ∧
    (detectCore nm price ctx).confidence ≤ 7/5 := by
  unfold detectCore
  rcases hd : definiteCat nm with _ | cat
  · dsimp only
    by_cases hss : storeServices.any (fun r => reTest r nm) = true
    · simp only [hss, if_true]
      norm_num
    · simp only [Bool.not_eq_true] at hss
      simp only [hss, Bool.false_eq_true, if_false]
      have h3 := likely_fold_bounds nm likelyNonFood (0, "other") le_rfl (by norm_num)
      have h4 := brand_fold_bounds nm nonFoodBrands _ h3.1 h3.2
      have h5 := contextLayer_bounds ctx _ h4.1 (le_trans h4.2 (by norm_num))
      rcases price with _ | p
      · exact detectTail_bounds _ _ _ h5.1 h5.2
      · dsimp only
        split_ifs
        · norm_num
        · exact detectTail_bounds _ _ _ h5.1 h5.2
  · dsimp only
    norm_num

/-- **C2 (amended).** For every item name, price and context, the
confidence returned by `detectNonFood` lies in `[0, 1.4]` — not `[0, 1]`:
the layer-5 context score is an unclamped sum of bonuses whose maximum is
`0.8 + 0.3 + 0.2 + 0.1 = 1.4`, and the final result applies no clamp. -/
theorem C2_confidence_bounds (name : String) (price : Option ℚ) (ctx : Option NFContext) :
    0 ≤ (detectNonFood name price ctx).confidence ∧
    (detectNonFood name price ctx).confidence ≤ 7/5 :=
  detectCore_confidence_bounds (jsTrim (lowerStr name.toList)) price ctx

/-- **C2 (counterexample).** The claim's interval `[0,1]` fails: for item
`"zzzz"` at price `200`, last in the list, at store `"CVS"`, the context
score is `0.8 + 0.3 + 0.2 + 0.1 = 1.4` and `detectNonFood` returns
confidence `1.4 > 1`. -/
theorem C2_confidence_exceeds_one :
    (detectNonFood "zzzz" (some 200)
      (some ⟨some "CVS", some [("zzzz", 200)], some 0⟩)).confidence = 7/5 ∧
    ¬ ((detectNonFood "zzzz" (some 200)
      (some ⟨some "CVS", some [("zzzz", 200)], some 0⟩)).confidence ≤ 1) := by
  exact ⟨by set_option maxRecDepth 100000 in decide,
         by set_option maxRecDepth 100000 in decide⟩

theorem detectCore_negative_price (nm : List Char) (p : ℚ) (ctx : Option NFContext)
    (h : p < 0) :
    (detectCore nm (some p) ctx).isNonFood = true ∧
    9/10 ≤ (detectCore nm (some p) ctx).confidence ∧
    (detectCore nm (some p) ctx).suggestedAction = "hide" := by
  unfold detectCore
  rcases hd : definiteCat nm with _ | cat
  · dsimp only
    by_cases hss : storeServices.any (fun r => reTest r nm) = true
    · simp only [hss, if_true]
      norm_num
    · simp only [Bool.not_eq_true] at hss
      simp only [hss, Bool.false_eq_true, if_false]
      rw [if_pos h]
      norm_num
  · dsimp only
    norm_num

/-- **C3 (amended).** For every negative-price item, `detectNonFood`
returns `isNonFood = true`, confidence `≥ 0.9` (not `≥ 0.95`: a name
matching a layer-2 store-service pattern short-circuits at `0.9` before
the price is examined) and `suggestedAction = "hide"`. -/
theorem C3_negative_price_hidden (name : String) (p : ℚ) (ctx : Option NFContext)
    (h : p < 0) :
    (detectNonFood name (some p) ctx).isNonFood = true ∧
    9/10 ≤ (detectNonFood name (some p) ctx).confidence ∧
    (detectNonFood name (some p) ctx).suggestedAction = "hide" :=
  detectCore_negative_price (jsTrim (lowerStr name.toList)) p ctx h

/-- Witness for C3 at `name = "zz"`, price `−1`, no context. -/
theorem C3_negative_price_hidden_witness :
    (-1 : ℚ) < 0 ∧
    (detectNonFood "zz" (some (-1)) none).isNonFood = true ∧
    9/10 ≤ (detectNonFood "zz" (some (-1)) none).confidence ∧
    (detectNonFood "zz" (some (-1)) none).suggestedAction = "hide" :=
  ⟨by norm_num, C3_negative_price_hidden "zz" (-1) none (by norm_num)⟩

/-- **C3 (counterexample).** The claim demands confidence `≥ 0.95` for
every negative-price item, but `"store 5"` (a store-service pattern line)
at price `−1` short-circuits in layer 2 with confidence `0.9 < 0.95`. -/
theorem C3_negative_price_store_service :
    detectNonFood "store 5" (some (-1)) none =
      { isNonFood := true, confidence := 9/10, category := "service",
        suggestedAction := "hide" } ∧
    ¬ ((19/20 : ℚ) ≤ 9/10) := by
  exact ⟨by set_option maxRecDepth 100000 in decide, by norm_num⟩

/-! ### C5 — garbled-text detector verdict -/

/-- **C5.** The verdict of `isOCRTextGarbled` is exactly the disjunction
`garbledLines > 0.15·totalLines ∨ validLines < 0.10·totalLines ∨
extremeIndicators > 2` (the `> 5` early exit is absorbed by the third
disjunct); in particular, whenever the garbled-line count exceeds 15 % of
the non-empty line count the verdict is `true`. -/
theorem C5_garbled_ratio (text : String) :
    (isOCRTextGarbled text =
      (decide ((garbledCount text : ℚ) > ((garbledLinesOf text).length : ℚ) * (15/100)) ||
       decide ((validCount text : ℚ) < ((garbledLinesOf text).length : ℚ) * (1/10)) ||
       decide (2 < extremeCount text))) ∧
    ((garbledCount text : ℚ) > ((garbledLinesOf text).length : ℚ) * (15/100) →
      isOCRTextGarbled text = true) := by
  have heq : isOCRTextGarbled text =
      (decide ((garbledCount text : ℚ) > ((garbledLinesOf text).length : ℚ) * (15/100)) ||
       decide ((validCount text : ℚ) < ((garbledLinesOf text).length : ℚ) * (1/10)) ||
       decide (2 < extremeCount text)) := by
    unfold isOCRTextGarbled
    by_cases h5 : 5 < extremeCount text
    · have h2 : 2 < extremeCount text := by omega
      simp [h5, h2]
    · simp [h5]
  refine ⟨heq, fun hg => ?_⟩
  rw [heq]
  simp [hg]

/-- Witness for C5: a one-line all-consonant text; its single line counts
as garbled, `1 > 0.15 · 1`, and the detector reports `true`. -/
theorem C5_garbled_ratio_witness :
    ((garbledCount "XXXXXXXQQ" : ℚ) >
      ((garbledLinesOf "XXXXXXXQQ").length : ℚ) * (15/100)) ∧
    isOCRTextGarbled "XXXXXXXQQ" = true := by
  have hg : ((garbledCount "XXXXXXXQQ" : ℚ) >
      ((garbledLinesOf "XXXXXXXQQ").length : ℚ) * (15/100)) := by
    set_option maxRecDepth 100000 in decide
  exact ⟨hg, (C5_garbled_ratio "XXXXXXXQQ").2 hg⟩

/-! ### C6 — determinism -/

/-- Every `cleanProductName` call resets the static regexes' `lastIndex`
state to zero on exit (each `test`/`replace` block ends with
`lastIndex = 0` on both paths). -/
theorem cleanProductName_state (st : CSubState) (n : String) :
    (cleanProductName st n).2 = initCSub := by
  unfold cleanProductName
  dsimp only
  split <;> rfl

theorem cleanCalls_init (names : List String) :
    cleanCalls initCSub names = initCSub := by
  induction names with
  | nil => rfl
  | cons n rest ih =>
    unfold cleanCalls at *
    rw [List.foldl_cons, cleanProductName_state, ih]

/-- **C6 (amended).** `cleanProductName` returns the same result for the
same input name on every call: although the six `characterSubstitutions`
regexes are static `g`-flagged objects whose `lastIndex` persists between
calls, every call leaves them reset, so after any history of prior calls
the next call behaves like a call on the pristine state.  (The pipeline is
deterministic once the `Math.random` draws are fixed; the degraded-text
recovery output, however, depends on those draws — see the
counterexample.) -/
theorem C6_cleaner_deterministic (history : List String) (n : String) :
    (cleanProductName (cleanCalls initCSub history) n).1 =
      (cleanProductName initCSub n).1 := by
  rw [cleanCalls_init]

/-- **C6 (counterexample).** The degraded-text recovery output is *not* a
function of the input text alone: with the same input text (and the same
dead `filename` argument), two different `Math.random` streams — equal
except for the store-name draw — produce different receipts. -/
theorem C6_recovery_depends_on_randomness :
    generateUniversalGroceryReceipt "SOME GARBLED TEXT" "receipt.jpg" randomStreamA ≠
    generateUniversalGroceryReceipt "SOME GARBLED TEXT" "receipt.jpg" randomStreamB := by
  set_option maxRecDepth 100000 in decide

/-! ### C9 — (non-)idempotence of the enhancer -/

theorem enhDictFold_clean_id (dict : List (String × String)) (bonus : ℚ)
    (acc : List Char × ℚ) (h : enhDictClean dict acc.1 = true) :
    enhDictFold dict bonus acc = acc := by
  induction dict with
  | nil => rfl
  | cons p rest ih =>
    simp only [enhDictClean, List.all_cons, Bool.and_eq_true, Bool.not_eq_true'] at h
    have hne : ¬ (wbTest p.1.toList acc.1 = true) := by
      rw [h.1]; exact Bool.false_ne_true
    unfold enhDictFold at *
    rw [List.foldl_cons, if_neg hne]
    exact ih h.2

/-- **C9 (counterexample).** The enhancer is *not* textually idempotent:
with store `"TARGET"`, the replacement of `UP&UP` by `Up & Up` can create
a fresh word-bounded `UP&UP` occurrence across the replacement junction.
`"UP&UP&UP"` enhances to `"Up & Up&up"`, but enhancing that output again
gives `"Up & Up & Up"`. -/
theorem C9_not_idempotent :
    (enhanceProductName "UP&UP&UP" "TARGET").enhancedName = "Up & Up&up" ∧
    (enhanceProductName
      ((enhanceProductName "UP&UP&UP" "TARGET").enhancedName) "TARGET").enhancedName =
        "Up & Up & Up" ∧
    ("Up & Up & Up" : String) ≠ "Up & Up&up" := by
  exact ⟨by set_option maxRecDepth 100000 in decide,
         by set_option maxRecDepth 100000 in decide, by decide⟩

/-- **C9 (amended).** The enhancer is a textual fixed point only on
already-enhanced names: for every name that the initial cleanup leaves
unchanged, that is dictionary-clean for the store's and the common
abbreviation tables, and that is already in title-cased form,
`enhanceProductName` returns the name itself (while the confidence may
still differ between applications). -/
theorem C9_fixed_point (s : String) (store : String)
    (hclean : enhCleanup s = s.toList)
    (hdict : enhDictClean ((List.lookup (jsToUpper store) STORE_PATTERNS).getD [])
      s.toList = true)
    (hcommon : enhDictClean COMMON_ABBREVIATIONS s.toList = true)
    (htitle : titleCasePhase s.toList = s.toList) :
    (enhanceProductName s store).enhancedName = s := by
  unfold enhanceProductName enhStage
  dsimp only
  rw [hclean]
  rw [enhDictFold_clean_id ((List.lookup (jsToUpper store) STORE_PATTERNS).getD [])
    (1/10) (s.toList, 7/10) hdict]
  rw [enhDictFold_clean_id COMMON_ABBREVIATIONS (1/20) (s.toList, 7/10) hcommon]
  dsimp only
  rw [htitle]
  rfl

/-- Witness for C9 (amended) at `"Grey Poupon Mustard"` / `"SAFEWAY"`. -/
theorem C9_fixed_point_witness :
    enhCleanup "Grey Poupon Mustard" = "Grey Poupon Mustard".toList ∧
    (enhanceProductName "Grey Poupon Mustard" "SAFEWAY").enhancedName =
      "Grey Poupon Mustard" := by
  refine ⟨by set_option maxRecDepth 100000 in decide, ?_⟩
  exact C9_fixed_point "Grey Poupon Mustard" "SAFEWAY"
    (by set_option maxRecDepth 100000 in decide)
    (by set_option maxRecDepth 100000 in decide)
    (by set_option maxRecDepth 100000 in decide)
    (by set_option maxRecDepth 100000 in decide)

end SavrScan
